import Mathlib

/-!
# Verification of the tensaikit wallet-backed execution pipeline

A shallow embedding of the core of the `tensaikit/tensaikit` repository:
the decimal-safe amount conversion, the error normalizer
(`src/common/types/commonTypes.ts`), the token-operation executors
(`writeSupplyCollateralToken`, the Morpho protocol `supply` action,
`SushiSwapSwapActions.executeSwap`, `prepareAndSendSwapTransaction`),
the dispatcher (`TensaiKit.getActions`), the delegated embedded wallet
(`PrivyEvmDelegatedEmbeddedWalletProvider`), and the native-token helper
(`isNativeToken`), together with theorems settling the behaviour claimed
by the specification.

Conventions: asynchronous network-bound operations (contract reads,
HTTP calls, transaction broadcast, receipt waits) are embedded as pure
functions over an explicit environment record that fixes the value each
external call returns, and every executor additionally returns the list
of network events it issued, in order.  Thrown JavaScript exceptions are
embedded with `Except`/an explicit outcome type.  JavaScript `bigint`
and arbitrary-precision decimal arithmetic are embedded with `Int`/`Nat`
(exact, no floating point).
-/

/-- Error codes are plain strings in the source (`CustomError.code : string`).
The `ErrorCode` enum lives in `common/errors`, which is not included under
`src/`; its member names are taken from the call sites under `src/`
(`ErrorCode.INVALID_INPUT`, `ErrorCode.INVALID_NETWORK`,
`ErrorCode.CONTRACT_ERROR`, `ErrorCode.API_CALL_FAILED`,
`ErrorCode.TOKEN_METADATA_ERROR`), each denoting its own name as string
value, as is usual for string-valued TS enums used this way. -/
def ErrorCode.INVALID_INPUT : String := "INVALID_INPUT"

/-- `ErrorCode.INVALID_NETWORK` (see `ErrorCode.INVALID_INPUT`). -/
def ErrorCode.INVALID_NETWORK : String := "INVALID_NETWORK"

/-- `ErrorCode.CONTRACT_ERROR` (see `ErrorCode.INVALID_INPUT`). -/
def ErrorCode.CONTRACT_ERROR : String := "CONTRACT_ERROR"

/-- `ErrorCode.API_CALL_FAILED` (see `ErrorCode.INVALID_INPUT`). -/
def ErrorCode.API_CALL_FAILED : String := "API_CALL_FAILED"

/-- `ErrorCode.TOKEN_METADATA_ERROR` (see `ErrorCode.INVALID_INPUT`). -/
def ErrorCode.TOKEN_METADATA_ERROR : String := "TOKEN_METADATA_ERROR"

/-- `class CustomError extends Error { constructor(message, public code) }`
from `src/common/types/commonTypes.ts`. -/
structure CustomError where
  message : String
  code : String
deriving DecidableEq, Repr

/-- `createError(message, code)` from `src/common/types/commonTypes.ts`. -/
def createError (message : String) (code : String) : CustomError :=
  ⟨message, code⟩

/-- A JSON value (insertion-ordered object entries), the shape of the
payloads the repository serializes (`JSON.stringify`, `canonicalize`). -/
inductive Json where
  | str (s : String)
  | num (n : Int)
  | bool (b : Bool)
  | null
  | arr (elems : List Json)
  | obj (entries : List (String × Json))

/-- A value thrown by JavaScript code, as discriminated by `handleError`:
a `CustomError`, some other `Error` (only its `message` is consulted), or
an arbitrary non-`Error` value (consulted via `JSON.stringify`). -/
inductive Thrown where
  | customError (e : CustomError)
  | jsError (message : String)
  | other (v : Json)

/-- Character-level escaping done by `JSON.stringify` for the characters
relevant here (quote and backslash; control characters do not occur in the
strings this development evaluates). -/
def escapeChars : List Char → List Char
  | [] => []
  | c :: cs =>
    if c = '"' then '\\' :: '"' :: escapeChars cs
    else if c = '\\' then '\\' :: '\\' :: escapeChars cs
    else c :: escapeChars cs

/-- JavaScript string escaping done by `JSON.stringify`. -/
def jsonEscape (s : String) : String := ⟨escapeChars s.data⟩

mutual

/-- `JSON.stringify` on a `Json` value: entries in insertion order. -/
def Json.stringify : Json → String
  | .str s => "\"" ++ jsonEscape s ++ "\""
  | .num n => toString n
  | .bool b => if b then "true" else "false"
  | .null => "null"
  | .arr elems => "[" ++ String.intercalate "," (stringifyList elems) ++ "]"
  | .obj entries =>
      "\x7b" ++ String.intercalate "," (stringifyEntries entries) ++ "\x7d"

/-- `JSON.stringify` on each element of an array. -/
def stringifyList : List Json → List String
  | [] => []
  | j :: js => Json.stringify j :: stringifyList js

/-- `JSON.stringify` on each `"key":value` entry of an object. -/
def stringifyEntries : List (String × Json) → List String
  | [] => []
  | (k, v) :: es =>
      ("\"" ++ jsonEscape k ++ "\":" ++ Json.stringify v) :: stringifyEntries es

end

/-- `handleError(message, error)` from `src/common/types/commonTypes.ts`:
pass a `CustomError` through unchanged; wrap any other `Error` as
`` `${message}: ${error.message}` `` with code `"UNKNOWN_ERROR"`; otherwise
stringify the thrown value into the message, same code. -/
def handleError (message : String) (error : Thrown) : CustomError :=
  match error with
  | .customError e => e
  | .jsError m => ⟨message ++ ": " ++ m, "UNKNOWN_ERROR"⟩
  | .other v => ⟨message ++ ": " ++ v.stringify, "UNKNOWN_ERROR"⟩

/-- An exact decimal number `m / 10^e`.  This is the value a JavaScript
`number` or numeric string denotes once read by `decimal.js`
(`new Decimal(x)` is exact for every double and every decimal string) or
by viem's `parseUnits` (which works digit-wise on the decimal string). -/
structure Dec where
  m : Int
  e : Nat
deriving DecidableEq, Repr

/-- Scale `a` by `10^d` and round the result to an integer, rounding
half away from zero (for non-negative values: half up).  This is the
exact mathematical behaviour of the `decimal.js` conversion pattern
(`decimalToBaseUnits` below), and the idealized rounding that viem's
`parseUnits` approximates through a floating-point step (compared
against it in the C1 theorems). -/
def decScaleHalfUp (a : Dec) (d : Nat) : Int :=
  if a.e ≤ d then
    a.m * 10 ^ (d - a.e)
  else
    let den := 10 ^ (a.e - d)
    if 0 ≤ a.m then
      ((2 * a.m.natAbs + den) / (2 * den) : Nat)
    else
      -(((2 * a.m.natAbs + den) / (2 * den) : Nat) : Int)

/-- The `new Decimal(amount).mul(new Decimal(10).pow(decimals)).toFixed(0)`
pattern (then `BigInt(...)`) used by `fetchSwapQuote`
(`src/unnamed/part_009:41-43`), `SushiSwapSwapActions.executeSwap`
(`swap.ts:153-155`) and `prepareAndSendSwapTransaction`
(`prepareAndSendSwapTransaction.ts:61-63`).  `decimal.js` arithmetic is
exact decimal arithmetic here (the product merely shifts the exponent, so
the default 20-significant-digit precision never rounds for amounts that
originate from a JavaScript `number`, which carries at most 17 significant
digits), and `toFixed(0)` rounds with the default `ROUND_HALF_UP`
(half away from zero). -/
def decimalToBaseUnits (amount : Dec) (decimals : Nat) : Int :=
  decScaleHalfUp amount decimals

/-- Round half to even: the integer nearest to `num / den`, ties going
to the even integer (IEEE-754 default rounding, used when a decimal
string is converted to a binary64 `Number`). -/
def roundHalfEven (num den : Nat) : Nat :=
  let q0 := num / den
  let r := num % den
  if 2 * r < den then q0
  else if den < 2 * r then q0 + 1
  else if q0 % 2 = 0 then q0 else q0 + 1

/-- `⌊log2 n⌋` computed with explicit fuel (any `fuel ≥ n` halving steps
suffice), so that it reduces inside the kernel. -/
def natLog2F (fuel n : Nat) : Nat :=
  match fuel with
  | 0 => 0
  | fuel + 1 => if 2 ≤ n then natLog2F fuel (n / 2) + 1 else 0

/-- Whether `2^t ≤ p / q`. -/
def pow2LeRat (p q : Nat) (t : Int) : Bool :=
  if 0 ≤ t then decide (q * 2 ^ t.toNat ≤ p) else decide (q ≤ p * 2 ^ (-t).toNat)

/-- `⌊log2 (p / q)⌋` for `p, q ≥ 1`: the floor logs of `p` and `q` pin
it to two candidates; one comparison decides. -/
def ratLog2 (p q : Nat) : Int :=
  let a : Int := natLog2F p p
  let b : Int := natLog2F q q
  if pow2LeRat p q (a - b) then a - b else a - b - 1

/-- The IEEE-754 binary64 value nearest to the non-negative decimal
`p / q` (round to nearest, ties to even — what ECMAScript's
string-to-`Number` conversion computes), returned as `(m, t)` denoting
the exact rational `m·2^t`.  Values below `2^(-1022)` are rounded as
subnormals (multiples of `2^(-1074)`); overflow cannot occur on the
`< 10` values `parseUnits` feeds in. -/
def jsNumberOfDecimal (p q : Nat) : Nat × Int :=
  if p = 0 then (0, 0)
  else
    let e := ratLog2 p q
    if e < -1022 then
      (roundHalfEven (p * 2 ^ 1074) q, -1074)
    else
      let s := 52 - e
      if 0 ≤ s then (roundHalfEven (p * 2 ^ s.toNat) q, e - 52)
      else (roundHalfEven p (q * 2 ^ (-s).toNat), e - 52)

/-- `Math.round` on a binary64 value `m·2^t ≥ 0`: the integer nearest to
the exact value of the double, ties toward `+∞`, i.e. `⌊m·2^t + 1/2⌋`. -/
def jsMathRound (d : Nat × Int) : Nat :=
  if 0 ≤ d.2 then d.1 * 2 ^ d.2.toNat
  else (2 * d.1 + 2 ^ (-d.2).toNat) / 2 ^ ((-d.2).toNat + 1)

/-- viem's trailing-zero trim `fraction.replace(/(0+)$/, "")` on a
fraction given as `len` decimal digits with value `frac`: returns the
trimmed digits' value and count. -/
def trimTrailingZeros (frac : Nat) : Nat → Nat × Nat
  | 0 => (frac, 0)
  | len + 1 =>
    if frac % 10 = 0 then trimTrailingZeros (frac / 10) len else (frac, len + 1)

/-- viem's `parseUnits(value, decimals)` (viem `^2.24.2`,
`utils/unit/parseUnits.ts`) used by the Morpho executors
(`writeSupplyCollateralToken.ts:74` etc.), modelled digit-for-digit on
the decimal string of `value`: split at the decimal point, trim the
fraction's trailing zeros, and
- `decimals = 0`: `Math.round(Number("." + fraction))`; an empty
  fraction gives `Number(".") = NaN`, whose round is not `1`, so nothing
  is added;
- fraction no longer than `decimals`: pad with zeros — the exact
  integer `value·10^decimals`, no rounding and no floating point;
- fraction longer than `decimals`: round the excess digits via
  `Math.round(Number(`${unit}.${right}`))` — a binary64 conversion, so
  the decision is made on the double nearest to `unit.right` — and
  carry `rounded = 10` into the kept digits (the `left`/slice/padStart
  arithmetic collapses to `left·10 + rounded`, carries included).
A leading `-` is stripped first and re-applied to the result. -/
def parseUnits (value : Dec) (decimals : Nat) : Int :=
  let n := value.m.natAbs
  let integer := n / 10 ^ value.e
  let frac0 := n % 10 ^ value.e
  let t := trimTrailingZeros frac0 value.e
  let mag : Nat :=
    if decimals = 0 then
      if t.2 = 0 then integer
      else if jsMathRound (jsNumberOfDecimal t.1 (10 ^ t.2)) = 1 then integer + 1
      else integer
    else if t.2 ≤ decimals then
      integer * 10 ^ decimals + t.1 * 10 ^ (decimals - t.2)
    else
      let rl := t.2 - decimals
      let hi := t.1 / 10 ^ rl
      let unit := hi % 10
      let left := hi / 10
      let right := t.1 % 10 ^ rl
      let rounded := jsMathRound (jsNumberOfDecimal (unit * 10 ^ rl + right) (10 ^ rl))
      integer * 10 ^ decimals + left * 10 + rounded
  if value.m < 0 then -(mag : Int) else (mag : Int)

/-- Spec-words definition (for comparison, not from the source): the
specification's `atomic(a, d) = floor(a × 10^d)`. -/
def specAtomicFloor (a : Dec) (d : Nat) : Int :=
  Int.fdiv (a.m * 10 ^ d) (10 ^ a.e)

/-- Spec-words-adjacent definition (for comparison): rounding
`a × 10^d` half up, i.e. `floor(a × 10^d + 1/2)`, for positive `a`. -/
def specAtomicHalfUp (a : Dec) (d : Nat) : Int :=
  Int.fdiv (2 * (a.m * 10 ^ d) + 10 ^ a.e) (2 * 10 ^ a.e)

theorem decScaleHalfUp_eq_specAtomicHalfUp (a : Dec) (d : Nat) (hpos : 0 ≤ a.m) :
    decScaleHalfUp a d = specAtomicHalfUp a d := by
  unfold decScaleHalfUp specAtomicHalfUp
  by_cases h : a.e ≤ d
  · simp only [if_pos h]
    have hpow : (10 : Int) ^ d = 10 ^ (d - a.e) * 10 ^ a.e := by
      rw [← pow_add]
      congr 1
      omega
    rw [hpow]
    rw [Int.fdiv_eq_ediv _ (by positivity)]
    have hsplit : 2 * (a.m * (10 ^ (d - a.e) * 10 ^ a.e)) + 10 ^ a.e
        = 10 ^ a.e * (2 * (a.m * 10 ^ (d - a.e)) + 1) := by ring
    rw [hsplit]
    have h2 : (2 : Int) * 10 ^ a.e = 10 ^ a.e * 2 := by ring
    rw [h2, Int.mul_ediv_mul_of_pos _ _ (by positivity)]
    omega
  · simp only [if_neg h, if_pos hpos]
    have hpow : (10 : Int) ^ a.e = 10 ^ d * 10 ^ (a.e - d) := by
      rw [← pow_add]; congr 1; omega
    rw [Int.fdiv_eq_ediv _ (by positivity), hpow]
    have hnum : 2 * (a.m * 10 ^ d) + 10 ^ d * 10 ^ (a.e - d)
        = 10 ^ d * (2 * a.m + 10 ^ (a.e - d)) := by ring
    have hden : (2 * (10 ^ d * 10 ^ (a.e - d)) : Int) = 10 ^ d * (2 * 10 ^ (a.e - d)) := by
      ring
    rw [hnum, hden, Int.mul_ediv_mul_of_pos _ _ (by positivity)]
    obtain ⟨n, hn⟩ := Int.eq_ofNat_of_zero_le hpos
    rw [hn, Int.natAbs_ofNat, Int.ofNat_ediv]
    push_cast
    ring_nf

theorem decScaleHalfUp_exact (a : Dec) (d : Nat) (h : a.e ≤ d) :
    decScaleHalfUp a d = specAtomicFloor a d := by
  unfold decScaleHalfUp specAtomicFloor
  simp only [if_pos h]
  have hpow : (10 : Int) ^ d = 10 ^ (d - a.e) * 10 ^ a.e := by
    rw [← pow_add]; congr 1; omega
  rw [hpow, ← mul_assoc, Int.mul_fdiv_cancel _ (by positivity)]

theorem trimTrailingZeros_le_and_eq (x len : Nat) :
    (trimTrailingZeros x len).2 ≤ len ∧
    (trimTrailingZeros x len).1 * 10 ^ (len - (trimTrailingZeros x len).2) = x := by
  induction len generalizing x with
  | zero => simp [trimTrailingZeros]
  | succ n ih =>
    unfold trimTrailingZeros
    by_cases h : x % 10 = 0
    · rw [if_pos h]
      obtain ⟨h1, h2⟩ := ih (x / 10)
      refine ⟨Nat.le_succ_of_le h1, ?_⟩
      have hsub : n + 1 - (trimTrailingZeros (x / 10) n).2
          = (n - (trimTrailingZeros (x / 10) n).2) + 1 := by omega
      rw [hsub, pow_succ, ← mul_assoc, h2]
      omega
    · rw [if_neg h]
      simp

theorem parseUnits_exact (a : Dec) (d : Nat) (hpos : 0 < a.m) (h : a.e ≤ d) :
    parseUnits a d = specAtomicFloor a d := by
  rw [← decScaleHalfUp_exact a d h]
  obtain ⟨n, hn⟩ := Int.eq_ofNat_of_zero_le (le_of_lt hpos)
  have hnn : ¬((n : Int) < 0) := by simp
  obtain ⟨ht1, ht2⟩ := trimTrailingZeros_le_and_eq (n % 10 ^ a.e) a.e
  rw [show decScaleHalfUp a d = (n : Int) * 10 ^ (d - a.e) by
    unfold decScaleHalfUp
    rw [if_pos h, hn]]
  simp only [parseUnits, hn, Int.natAbs_ofNat]
  rw [if_neg hnn]
  by_cases hd0 : d = 0
  · subst hd0
    have he0 : a.e = 0 := Nat.le_zero.mp h
    simp [he0, trimTrailingZeros]
  · rw [if_neg hd0, if_pos (le_trans ht1 h)]
    push_cast
    have key : (n / 10 ^ a.e) * 10 ^ d +
        (trimTrailingZeros (n % 10 ^ a.e) a.e).1 *
          10 ^ (d - (trimTrailingZeros (n % 10 ^ a.e) a.e).2)
        = n * 10 ^ (d - a.e) := by
      have hd10 : (10 : Nat) ^ d = 10 ^ a.e * 10 ^ (d - a.e) := by
        rw [← pow_add]; congr 1; omega
      have hdt : (10 : Nat) ^ (d - (trimTrailingZeros (n % 10 ^ a.e) a.e).2)
          = 10 ^ (a.e - (trimTrailingZeros (n % 10 ^ a.e) a.e).2) *
              10 ^ (d - a.e) := by
        rw [← pow_add]; congr 1; omega
      calc (n / 10 ^ a.e) * 10 ^ d +
            (trimTrailingZeros (n % 10 ^ a.e) a.e).1 *
              10 ^ (d - (trimTrailingZeros (n % 10 ^ a.e) a.e).2)
          = ((n / 10 ^ a.e) * 10 ^ a.e +
              (trimTrailingZeros (n % 10 ^ a.e) a.e).1 *
                10 ^ (a.e - (trimTrailingZeros (n % 10 ^ a.e) a.e).2)) *
              10 ^ (d - a.e) := by
            rw [hd10, hdt]; ring
        _ = ((n / 10 ^ a.e) * 10 ^ a.e + n % 10 ^ a.e) * 10 ^ (d - a.e) := by
            rw [ht2]
        _ = n * 10 ^ (d - a.e) := by
            rw [Nat.mul_comm (n / 10 ^ a.e) (10 ^ a.e), Nat.div_add_mod]
    exact_mod_cast congrArg (Nat.cast (R := Int)) key

/-- C1 (counterexample): the conversion to atomic units is not
`floor(a × 10^d)`: at `a = 5·10^(-19)` (the JavaScript number `5e-19`,
or the schema-valid string `"0.0000000000000000005"`) and `d = 18`,
`a × 10^d = 0.5`, whose floor is `0`, yet the
`Decimal(...).mul(...).toFixed(0)` pattern used on the swap path rounds
half up and yields `1` — and viem's `parseUnits` on the Morpho path
(`Math.round` of the exactly-representable double `0.5`) yields `1` as
well. -/
theorem decimalToBaseUnits_not_floor :
    decimalToBaseUnits ⟨5, 19⟩ 18 ≠ specAtomicFloor ⟨5, 19⟩ 18 ∧
    decimalToBaseUnits ⟨5, 19⟩ 18 = 1 ∧
    specAtomicFloor ⟨5, 19⟩ 18 = 0 ∧
    parseUnits ⟨5, 19⟩ 18 = 1 := by
  refine ⟨by decide, by decide, by decide, by decide⟩

/-- C1 (amended): for every human amount `a > 0` and decimals `d`: the
swap-path conversion (`Decimal(...).mul(10^d).toFixed(0)`) computes
`floor(a × 10^d + 1/2)` — `a × 10^d` rounded half up — with exact
arbitrary-precision decimal arithmetic; whenever `a` has at most `d`
decimal places, BOTH conversions (the Decimal pattern and viem
`parseUnits` on the Morpho path) are exactly
`a × 10^d = floor(a × 10^d)` with no rounding and no floating point at
all — in particular `"0.1"` at `d = 18` yields exactly
`100000000000000000`.  When `a` has more than `d` decimal places,
`parseUnits` rounds the excess digits half up through a
`Math.round(Number(...))` binary64 step: this agrees with the exact
half-up rounding when the excess run is exactly representable (e.g.
`5·10^(-19)` at `d = 18` gives `1`), but drifts from it near ties on
long excess runs: at the schema-valid
`"0.00000000000000000449999999999999999999"`, `d = 18`, the nearest
double to `4.49999999999999999999` is `4.5`, so viem yields `5` where
exact half-up arithmetic yields `4`. -/
theorem atomic_conversion_half_up (a : Dec) (d : Nat) (hpos : 0 < a.m) :
    decimalToBaseUnits a d = specAtomicHalfUp a d ∧
    (a.e ≤ d → decimalToBaseUnits a d = specAtomicFloor a d ∧
               parseUnits a d = specAtomicFloor a d) ∧
    decimalToBaseUnits ⟨1, 1⟩ 18 = 100000000000000000 ∧
    parseUnits ⟨1, 1⟩ 18 = 100000000000000000 ∧
    parseUnits ⟨5, 19⟩ 18 = specAtomicHalfUp ⟨5, 19⟩ 18 ∧
    parseUnits ⟨449999999999999999999, 38⟩ 18 = 5 ∧
    specAtomicHalfUp ⟨449999999999999999999, 38⟩ 18 = 4 := by
  refine ⟨decScaleHalfUp_eq_specAtomicHalfUp a d (le_of_lt hpos),
    fun hh => ⟨decScaleHalfUp_exact a d hh, parseUnits_exact a d hpos hh⟩,
    by decide, by decide, by decide, by decide, by decide⟩

/-- C1 (witness): `atomic_conversion_half_up` evaluated at `a = 0.1`,
`d = 18`. -/
theorem atomic_conversion_half_up_witness :
    decimalToBaseUnits ⟨1, 1⟩ 18 = specAtomicHalfUp ⟨1, 1⟩ 18 ∧
    ((1 : Nat) ≤ 18 → decimalToBaseUnits ⟨1, 1⟩ 18 = specAtomicFloor ⟨1, 1⟩ 18 ∧
               parseUnits ⟨1, 1⟩ 18 = specAtomicFloor ⟨1, 1⟩ 18) ∧
    decimalToBaseUnits ⟨1, 1⟩ 18 = 100000000000000000 ∧
    parseUnits ⟨1, 1⟩ 18 = 100000000000000000 ∧
    parseUnits ⟨5, 19⟩ 18 = specAtomicHalfUp ⟨5, 19⟩ 18 ∧
    parseUnits ⟨449999999999999999999, 38⟩ 18 = 5 ∧
    specAtomicHalfUp ⟨449999999999999999999, 38⟩ 18 = 4 :=
  atomic_conversion_half_up ⟨1, 1⟩ 18 (by decide)

/-- C5 (counterexample): wrapping a generic `Error` produces the code
string `"UNKNOWN_ERROR"`, not `"UNKNOWN"`: `handleError` in
`src/common/types/commonTypes.ts` hard-codes `"UNKNOWN_ERROR"`. -/
theorem handleError_code_not_UNKNOWN :
    (handleError "ctx" (.jsError "boom")).code = "UNKNOWN_ERROR" ∧
    (handleError "ctx" (.jsError "boom")).code ≠ "UNKNOWN" := by
  refine ⟨rfl, by decide⟩

/-- C5 (amended): the error normalizer `handleError`, for every thrown
value: a typed `CustomError` is returned unchanged (its original code
preserved); a generic `Error` is wrapped as a typed error whose message
is `"<context>: <original message>"` and whose code is the unclassified
code `"UNKNOWN_ERROR"` (the code the spec's taxonomy calls `UNKNOWN`);
a non-`Error` value is JSON-stringified into the message rather than
dropped, with the same code. -/
theorem handleError_normalizes (ctx m : String) (e : CustomError) (v : Json) :
    handleError ctx (.customError e) = e ∧
    handleError ctx (.jsError m) =
      ⟨ctx ++ ": " ++ m, "UNKNOWN_ERROR"⟩ ∧
    handleError ctx (.other v) =
      ⟨ctx ++ ": " ++ v.stringify, "UNKNOWN_ERROR"⟩ :=
  ⟨rfl, rfl, rfl⟩

/-- JavaScript `String.prototype.toLowerCase`, for the ASCII strings
(hex addresses) this development evaluates. -/
def jsToLower (s : String) : String := ⟨s.data.map Char.toLower⟩

/-- JavaScript `String.prototype.startsWith`. -/
def strStartsWith (s p : String) : Bool := p.data.isPrefixOf s.data

/-- `isNativeToken(tokenAddress)` from `src/utils.ts:131-137`: lowercase
the address and compare against the two native-token placeholders. -/
def isNativeToken (tokenAddress : String) : Bool :=
  let normalized := jsToLower tokenAddress
  normalized == "0xeeeeeeeeeeeeeeeeeeeeeeeeeeeeeeeeeeeeeeee" ||
    normalized == "0x0000000000000000000000000000000000000000"

/-- `Network` from `src/network/types.ts`. -/
structure Network where
  protocolFamily : String
  networkId : Option String := none
  chainId : Option String := none
deriving DecidableEq, Repr

/-- One network-bound operation issued by an executor (a contract read,
an HTTP call, a transaction broadcast or a receipt wait), tagged with the
call site it embeds.  Executors return the list of these events in the
order they issue them. -/
inductive Ev where
  /-- `readContract(... idToMarketParams ...)` -/
  | readMarketConfig (marketId : String)
  /-- `readContract(... decimals ...)` -/
  | readDecimals (token : String)
  /-- `readContract(... allowance ...)` via `allowance` in `src/utils.ts` -/
  | readAllowance (token spender : String)
  /-- `sendTransaction` of ERC-20 `approve` calldata via `approve` in
  `src/utils.ts`, recording the exact atomic amount approved -/
  | sendApprove (token spender : String) (amount : Int)
  /-- `waitForTransactionReceipt` inside `approve` -/
  | waitApproveReceipt
  /-- HTTP `fetchTokenMetadata` -/
  | fetchTokenMetadata (token : String)
  /-- HTTP `sushiSwapModule.getSwap` -/
  | fetchSwapQuote
  /-- `publicClient.call` dry-run of the prepared swap -/
  | simulate
  /-- `sendTransaction` of the main (supply / swap) call -/
  | sendMain
  /-- `waitForTransactionReceipt` of the main transaction -/
  | waitMainReceipt
deriving DecidableEq, Repr

/-- The outcome of one executor run: a resolved value or a thrown
`CustomError` (every executor normalizes what it throws through
`handleError`). -/
inductive Outcome (α : Type) where
  | ok (v : α)
  | err (e : CustomError)
deriving DecidableEq, Repr

/-- `approve(wallet, tokenAddress, spenderAddress, amount)` from
`src/utils.ts:40-66`: encode and send the ERC-20 `approve` transaction,
wait for its receipt, and return a success message; any failure is caught
and returned as an `"Error approving tokens for ..."` message string
(never thrown).  `sendOk` fixes whether the send/wait pair succeeds and
`errMsg` the failure's message. -/
def approve (sendOk : Bool) (errMsg : String) (tokenAddress spenderAddress : String)
    (amount : Int) : List Ev × String :=
  if sendOk then
    ([.sendApprove tokenAddress spenderAddress amount, .waitApproveReceipt],
      "Approval successful: " ++ spenderAddress ++
        " is now allowed to spend up to " ++ toString amount ++ " tokens.")
  else
    ([.sendApprove tokenAddress spenderAddress amount],
      "Error approving tokens for " ++ spenderAddress ++ ": " ++ errMsg)

/-- The market parameters resolved by `fetchMarketConfigFromContract`
(`src/unnamed/part_017`). -/
structure MarketConfig where
  loanToken : String
  collateralToken : String
  oracle : String
  irm : String
  lltv : Int
  morphoBlueContractAddress : String
deriving DecidableEq, Repr

/-- The environment of one Morpho executor run: the value each external
call returns, fixed up front.  `marketParams = none` embeds a falsy
`idToMarketParams` result; `approveSendOk` (resp. `mainSendOk`) fixes
whether the approve (resp. main) send/wait pair succeeds, with the thrown
message in `approveErrMsg` (resp. `mainErrMsg`). -/
structure MorphoEnv where
  chainId : Option String
  marketParams : Option MarketConfig
  decimals : Nat
  allowanceAmount : Nat
  approveSendOk : Bool
  approveErrMsg : String
  mainSendOk : Bool
  mainErrMsg : String
  txHash : String
  receipt : String
deriving DecidableEq, Repr

/-- The success payload of `writeSupplyCollateralToken`:
`{collateralToken, txHash, receipt}`. -/
structure SupplyResult where
  collateralToken : String
  txHash : String
  receipt : String
deriving DecidableEq, Repr

/-- `writeSupplyCollateralToken(walletProvider, args)` from
`src/actionProviders/morpho/logic/writeSupplyCollateralToken.ts`:
validate `assets > 0`, resolve the market config
(`fetchMarketConfigFromContract`, which first checks the network's
`chainId`), read the collateral token's `decimals`, convert with
`parseUnits`, ensure allowance (approving exactly the atomic amount and
waiting for the approval receipt when the current allowance is short),
send the `supplyCollateral` transaction and wait for its receipt.  All
throws funnel through
`handleError("Error supplying collateral to Morpho Vault", ...)`, which
passes `CustomError`s through unchanged. -/
def writeSupplyCollateralToken (env : MorphoEnv) (assets : Dec) (marketId : String) :
    List Ev × Outcome SupplyResult :=
  if assets.m ≤ 0 then
    ([], .err (createError "Error: Assets amount must be greater than 0"
      ErrorCode.INVALID_INPUT))
  else
    match env.chainId with
    | none => ([], .err (createError "Invalid or missing network"
        ErrorCode.INVALID_NETWORK))
    | some _ =>
      match env.marketParams with
      | none => ([.readMarketConfig marketId],
          .err (createError "Invalid market id or missing market information"
            ErrorCode.INVALID_INPUT))
      | some cfg =>
        let collateralToken := cfg.collateralToken
        let atomicAssets := parseUnits assets env.decimals
        let evs := [Ev.readMarketConfig marketId, Ev.readDecimals collateralToken,
          Ev.readAllowance collateralToken cfg.morphoBlueContractAddress]
        if (env.allowanceAmount : Int) < atomicAssets then
          let ar := approve env.approveSendOk env.approveErrMsg collateralToken
            cfg.morphoBlueContractAddress atomicAssets
          if strStartsWith ar.2 "Error" then
            (evs ++ ar.1,
              .err (createError ("Error approving Morpho Vault as spender: " ++ ar.2)
                ErrorCode.CONTRACT_ERROR))
          else if env.mainSendOk then
            (evs ++ ar.1 ++ [Ev.sendMain, Ev.waitMainReceipt],
              .ok ⟨collateralToken, env.txHash, env.receipt⟩)
          else
            (evs ++ ar.1 ++ [Ev.sendMain],
              .err (handleError "Error supplying collateral to Morpho Vault"
                (.jsError env.mainErrMsg)))
        else if env.mainSendOk then
          (evs ++ [Ev.sendMain, Ev.waitMainReceipt],
            .ok ⟨collateralToken, env.txHash, env.receipt⟩)
        else
          (evs ++ [Ev.sendMain],
            .err (handleError "Error supplying collateral to Morpho Vault"
              (.jsError env.mainErrMsg)))

/-- `wrapAndStringify(actionProvider, input)` from
`src/common/utils/wrapAndStringify.ts`, for string payloads:
`JSON.stringify({action, data})`. -/
def wrapAndStringify (actionProvider : String) (input : String) : String :=
  Json.stringify (.obj [("action", .str actionProvider), ("data", .str input)])

/-- `objectToString(obj)` from `src/common/utils` (see
`wrapAndStringify.ts`): a string is returned as-is, anything else is
`JSON.stringify`-ed. -/
def objectToString (obj : Json) : String :=
  match obj with
  | .str s => s
  | j => j.stringify

/-- `MorphoProtocolActionProvider.supply(walletProvider, args)` from
`src/unnamed/part_021:160-264`: the `morpho.protocol.supply` action.
Unlike `writeSupplyCollateralToken`, a non-positive amount is reported by
RETURNING `wrapAndStringify("morpho.protocol.supply", "Error: ...")`
(before the `try` block, before any network call), and an approval
failure is likewise RETURNED as a wrapped error string; other failures
are thrown through `handleError("Error depositing to Morpho Vault", ...)`.
`assetsRaw` is the caller's original amount string (embedded verbatim in
the success message); `assets` is its parsed decimal value. -/
def morphoProtocolSupply (env : MorphoEnv) (assetsRaw : String) (assets : Dec)
    (marketId : String) : List Ev × Outcome String :=
  if assets.m ≤ 0 then
    ([], .ok (wrapAndStringify "morpho.protocol.supply"
      "Error: Assets amount must be greater than 0"))
  else
    match env.chainId with
    | none => ([], .err (createError "Invalid or missing network"
        ErrorCode.INVALID_NETWORK))
    | some _ =>
      match env.marketParams with
      | none => ([.readMarketConfig marketId],
          .err (createError "Invalid market id or missing market information"
            ErrorCode.INVALID_INPUT))
      | some cfg =>
        let loanToken := cfg.loanToken
        let atomicAssets := parseUnits assets env.decimals
        let evs := [Ev.readMarketConfig marketId, Ev.readDecimals loanToken,
          Ev.readAllowance loanToken cfg.morphoBlueContractAddress]
        if (env.allowanceAmount : Int) < atomicAssets then
          let ar := approve env.approveSendOk env.approveErrMsg loanToken
            cfg.morphoBlueContractAddress atomicAssets
          if strStartsWith ar.2 "Error" then
            (evs ++ ar.1,
              .ok (wrapAndStringify "morpho.protocol.supply"
                ("Error approving Morpho Vault as spender: " ++ ar.2)))
          else if env.mainSendOk then
            (evs ++ ar.1 ++ [Ev.sendMain, Ev.waitMainReceipt],
              .ok (wrapAndStringify "morpho.protocol.supply"
                ("Deposited " ++ assetsRaw ++ " tokens (loanToken: " ++ loanToken ++
                 ") to Morpho Market Id " ++ marketId ++
                 " with transaction hash: " ++ env.txHash ++
                 "\nTransaction receipt: " ++ objectToString (.str env.receipt))))
          else
            (evs ++ ar.1 ++ [Ev.sendMain],
              .err (handleError "Error depositing to Morpho Vault"
                (.jsError env.mainErrMsg)))
        else if env.mainSendOk then
          (evs ++ [Ev.sendMain, Ev.waitMainReceipt],
            .ok (wrapAndStringify "morpho.protocol.supply"
              ("Deposited " ++ assetsRaw ++ " tokens (loanToken: " ++ loanToken ++
               ") to Morpho Market Id " ++ marketId ++
               " with transaction hash: " ++ env.txHash ++
               "\nTransaction receipt: " ++ objectToString (.str env.receipt))))
        else
          (evs ++ [Ev.sendMain],
            .err (handleError "Error depositing to Morpho Vault"
              (.jsError env.mainErrMsg)))

/-- The environment of one swap-executor run (`executeSwap` /
`prepareAndSendSwapTransaction`): the value each external call returns,
fixed up front.  `metadataOk = false` embeds a failing token-metadata
HTTP call; `metadataDecimals` is the `decimals` field of the fetched
metadata (`none` when absent — note the source's falsy check also
rejects `0`); `quoteStatus` is `swapData.status`; `simOk` fixes whether
the `publicClient.call` dry-run resolves or throws `simErrMsg`. -/
structure SwapEnv where
  chainId : Option String
  networkId : Option String
  metadataOk : Bool
  metadataDecimals : Option Nat
  spender : String
  allowanceAmount : Nat
  approveSendOk : Bool
  approveErrMsg : String
  quoteStatus : String
  simOk : Bool
  simErrMsg : String
  simResult : String
  mainSendOk : Bool
  mainErrMsg : String
  txHash : String
deriving DecidableEq, Repr

/-- The quote/simulate/send/confirm tail of
`SushiSwapSwapActions.executeSwap` (`swap.ts:186-237`), shared by every
branch of the approval phase; `evs` is the event prefix accumulated so
far.  A failing simulation or send throws a generic `Error`, wrapped by
`handleError("Failed to execute swap", ...)`. -/
def executeSwapFinish (env : SwapEnv) (evs : List Ev) : List Ev × Outcome String :=
  let evs := evs ++ [Ev.fetchSwapQuote]
  if env.quoteStatus ≠ "Success" then
    (evs, .err (createError "Swap quote generation failed" "SWAP_QUOTE_FAILED"))
  else
    let evs := evs ++ [Ev.simulate]
    if env.simOk then
      let evs := evs ++ [Ev.sendMain]
      if env.mainSendOk then
        (evs ++ [Ev.waitMainReceipt],
          .ok (objectToString (.obj [("txHash", .str env.txHash),
            ("simulation", .str env.simResult)])))
      else
        (evs, .err (handleError "Failed to execute swap" (.jsError env.mainErrMsg)))
    else
      (evs, .err (handleError "Failed to execute swap" (.jsError env.simErrMsg)))

/-- `SushiSwapSwapActions.executeSwap(walletProvider, args)` from
`src/actionProviders/sushiSwap/actions/swap.ts:123-241`: validate the
network, fetch token metadata (an HTTP call — there is no check that the
amount is positive), convert the amount with the `Decimal`/`toFixed(0)`
pattern, for non-native input tokens read the allowance and approve the
exact atomic amount when short (an approval failure is RETURNED as an
`"Error approving Morpho Vault as spender: ..."` string [sic]), then
fetch the swap quote, simulate, send and confirm. -/
def executeSwap (env : SwapEnv) (tokenIn tokenOut : String) (amount : Dec) :
    List Ev × Outcome String :=
  if env.chainId = none ∨ env.networkId = none then
    ([], .err (createError "Invalid or missing network" ErrorCode.INVALID_NETWORK))
  else
    let evs := [Ev.fetchTokenMetadata tokenIn]
    if env.metadataOk = false then
      (evs, .err (createError "Failed to fetch token information"
        ErrorCode.API_CALL_FAILED))
    else
      match env.metadataDecimals with
      | none => (evs, .err (createError "Failed to fetch token decimals"
          ErrorCode.TOKEN_METADATA_ERROR))
      | some dcm =>
        if dcm = 0 then
          (evs, .err (createError "Failed to fetch token decimals"
            ErrorCode.TOKEN_METADATA_ERROR))
        else
          let amountInBaseUnits := decimalToBaseUnits amount dcm
          if isNativeToken tokenIn then
            executeSwapFinish env evs
          else
            let evs := evs ++ [Ev.readAllowance tokenIn env.spender]
            if (env.allowanceAmount : Int) < amountInBaseUnits then
              let ar := approve env.approveSendOk env.approveErrMsg tokenIn
                env.spender amountInBaseUnits
              if strStartsWith ar.2 "Error" then
                (evs ++ ar.1,
                  .ok ("Error approving Morpho Vault as spender: " ++ ar.2))
              else
                executeSwapFinish env (evs ++ ar.1)
            else
              executeSwapFinish env evs

/-- The quote/simulate/send/confirm tail of
`prepareAndSendSwapTransaction` (`prepareAndSendSwapTransaction.ts:95-142`);
`evs` is the event prefix accumulated so far.  A failing simulation or
send throws a generic `Error`, wrapped by
`handleError("Failed to prepare and send swap transaction", ...)`. -/
def prepareAndSendSwapFinish (env : SwapEnv) (evs : List Ev) :
    List Ev × Outcome String :=
  let evs := evs ++ [Ev.fetchSwapQuote]
  if env.quoteStatus ≠ "Success" then
    (evs, .err (createError "Swap quote generation failed" "SWAP_QUOTE_FAILED"))
  else
    let evs := evs ++ [Ev.simulate]
    if env.simOk then
      let evs := evs ++ [Ev.sendMain]
      if env.mainSendOk then
        (evs ++ [Ev.waitMainReceipt],
          .ok ("Swap transaction successful. Transaction Hash: " ++ env.txHash))
      else
        (evs, .err (handleError "Failed to prepare and send swap transaction"
          (.jsError env.mainErrMsg)))
    else
      (evs, .err (handleError "Failed to prepare and send swap transaction"
        (.jsError env.simErrMsg)))

/-- `prepareAndSendSwapTransaction(walletProvider, args)` from
`src/actionProviders/sushiSwap/logic/prepareAndSendSwapTransaction.ts`:
identical shape to `executeSwap` (validate network, fetch metadata with
no amount-positivity check, convert, ensure allowance for non-native
tokens — an approval failure is RETURNED as an
`"Error approving SushiSwap as spender: ..."` string — quote, simulate,
send, confirm). -/
def prepareAndSendSwapTransaction (env : SwapEnv) (tokenIn tokenOut : String)
    (amount : Dec) : List Ev × Outcome String :=
  if env.chainId = none ∨ env.networkId = none then
    ([], .err (createError "Invalid or missing network" ErrorCode.INVALID_NETWORK))
  else
    let evs := [Ev.fetchTokenMetadata tokenIn]
    if env.metadataOk = false then
      (evs, .err (createError "Failed to fetch token information"
        ErrorCode.API_CALL_FAILED))
    else
      match env.metadataDecimals with
      | none => (evs, .err (createError "Failed to fetch token decimals"
          ErrorCode.TOKEN_METADATA_ERROR))
      | some dcm =>
        if dcm = 0 then
          (evs, .err (createError "Failed to fetch token decimals"
            ErrorCode.TOKEN_METADATA_ERROR))
        else
          let amountInBaseUnits := decimalToBaseUnits amount dcm
          if isNativeToken tokenIn then
            prepareAndSendSwapFinish env evs
          else
            let evs := evs ++ [Ev.readAllowance tokenIn env.spender]
            if (env.allowanceAmount : Int) < amountInBaseUnits then
              let ar := approve env.approveSendOk env.approveErrMsg tokenIn
                env.spender amountInBaseUnits
              if strStartsWith ar.2 "Error" then
                (evs ++ ar.1,
                  .ok ("Error approving SushiSwap as spender: " ++ ar.2))
              else
                prepareAndSendSwapFinish env (evs ++ ar.1)
            else
              prepareAndSendSwapFinish env evs

/-- The approve transactions submitted in a trace, with their token,
spender and exact atomic amount. -/
def approveCalls (tr : List Ev) : List (String × String × Int) :=
  tr.filterMap fun e =>
    match e with
    | .sendApprove t s n => some (t, s, n)
    | _ => none

/-- Whether an event belongs to the allowance-check-and-approve step. -/
def isApprovalEv (e : Ev) : Bool :=
  match e with
  | .readAllowance _ _ => true
  | .sendApprove _ _ _ => true
  | .waitApproveReceipt => true
  | _ => false

/-- The prefix of a trace strictly before the first broadcast of the
main transaction. -/
def beforeMainSend (tr : List Ev) : List Ev :=
  tr.takeWhile (fun e => !(e == Ev.sendMain))

theorem executeSwapFinish_head (env : SwapEnv) (e : Ev) (evs : List Ev) :
    (executeSwapFinish env (e :: evs)).1.head? = some e := by
  unfold executeSwapFinish
  by_cases h1 : env.quoteStatus = "Success" <;>
    by_cases h2 : env.simOk <;>
      by_cases h3 : env.mainSendOk <;>
        simp [h1, h2, h3]

theorem prepareAndSendSwapFinish_head (env : SwapEnv) (e : Ev) (evs : List Ev) :
    (prepareAndSendSwapFinish env (e :: evs)).1.head? = some e := by
  unfold prepareAndSendSwapFinish
  by_cases h1 : env.quoteStatus = "Success" <;>
    by_cases h2 : env.simOk <;>
      by_cases h3 : env.mainSendOk <;>
        simp [h1, h2, h3]

theorem executeSwap_trace_head (env : SwapEnv) (tIn tOut : String) (a : Dec)
    (h1 : env.chainId ≠ none) (h2 : env.networkId ≠ none) :
    (executeSwap env tIn tOut a).1.head? = some (.fetchTokenMetadata tIn) := by
  have hcond : ¬(env.chainId = none ∨ env.networkId = none) := by
    simp [h1, h2]
  unfold executeSwap
  rw [if_neg hcond]
  by_cases hm : env.metadataOk = false
  · simp [hm]
  · rw [if_neg hm]
    cases hd : env.metadataDecimals with
    | none => simp
    | some dcm =>
      simp only
      by_cases h0 : dcm = 0
      · simp [h0]
      · rw [if_neg h0]
        by_cases hn : isNativeToken tIn
        · simp only [hn, if_true]
          exact executeSwapFinish_head env _ _
        · simp only [hn, Bool.false_eq_true, if_false]
          by_cases hlt : (env.allowanceAmount : Int) < decimalToBaseUnits a dcm
          · rw [if_pos hlt]
            by_cases hs : strStartsWith (approve env.approveSendOk env.approveErrMsg
                tIn env.spender (decimalToBaseUnits a dcm)).2 "Error"
            · simp [hs]
            · rw [if_neg hs]
              exact executeSwapFinish_head env _ _
          · rw [if_neg hlt]
            exact executeSwapFinish_head env _ _

theorem prepareAndSendSwap_trace_head (env : SwapEnv) (tIn tOut : String) (a : Dec)
    (h1 : env.chainId ≠ none) (h2 : env.networkId ≠ none) :
    (prepareAndSendSwapTransaction env tIn tOut a).1.head? =
      some (.fetchTokenMetadata tIn) := by
  have hcond : ¬(env.chainId = none ∨ env.networkId = none) := by
    simp [h1, h2]
  unfold prepareAndSendSwapTransaction
  rw [if_neg hcond]
  by_cases hm : env.metadataOk = false
  · simp [hm]
  · rw [if_neg hm]
    cases hd : env.metadataDecimals with
    | none => simp
    | some dcm =>
      simp only
      by_cases h0 : dcm = 0
      · simp [h0]
      · rw [if_neg h0]
        by_cases hn : isNativeToken tIn
        · simp only [hn, if_true]
          exact prepareAndSendSwapFinish_head env _ _
        · simp only [hn, Bool.false_eq_true, if_false]
          by_cases hlt : (env.allowanceAmount : Int) < decimalToBaseUnits a dcm
          · rw [if_pos hlt]
            by_cases hs : strStartsWith (approve env.approveSendOk env.approveErrMsg
                tIn env.spender (decimalToBaseUnits a dcm)).2 "Error"
            · simp [hs]
            · rw [if_neg hs]
              exact prepareAndSendSwapFinish_head env _ _
          · rw [if_neg hlt]
            exact prepareAndSendSwapFinish_head env _ _

/-- C2 (counterexample): on the swap execution path there is no
positivity check at all: with amount `a = 0 ≤ 0` and a fully healthy
environment, `prepareAndSendSwapTransaction` issues the token-metadata
HTTP network call as its very first operation and runs to a successful
completion — it does not fail with `INVALID_INPUT`, let alone before a
network call. -/
theorem swap_executor_no_nonpositive_guard :
    (prepareAndSendSwapTransaction
        ⟨some "747474", some "katana-network", true, some 18, "0xSpender", 0,
          true, "", "Success", true, "", "0xsim", true, "", "0xHash"⟩
        "0xTokenIn" "0xTokenOut" ⟨0, 0⟩).1.head? =
      some (.fetchTokenMetadata "0xTokenIn") ∧
    (prepareAndSendSwapTransaction
        ⟨some "747474", some "katana-network", true, some 18, "0xSpender", 0,
          true, "", "Success", true, "", "0xsim", true, "", "0xHash"⟩
        "0xTokenIn" "0xTokenOut" ⟨0, 0⟩).2 =
      .ok "Swap transaction successful. Transaction Hash: 0xHash" := by
  constructor
  · rfl
  · rfl

/-- C2 (amended): for every caller-supplied human amount `a ≤ 0`, the
Morpho logic-layer executor (`writeSupplyCollateralToken`) fails with a
typed `INVALID_INPUT` error before issuing any network call (its trace
is empty), and the Morpho protocol `supply` action likewise stops before
any network call — but it RETURNS a wrapped
`"Error: Assets amount must be greater than 0"` string instead of
throwing a typed error; the swap executors perform no positivity check
at all: on any network-valid environment their first operation is the
token-metadata network call. -/
theorem nonpositive_amount_validation (menv : MorphoEnv) (senv : SwapEnv)
    (assetsRaw marketId tIn tOut : String) (a : Dec) (hle : a.m ≤ 0) :
    writeSupplyCollateralToken menv a marketId =
      ([], .err (createError "Error: Assets amount must be greater than 0"
        ErrorCode.INVALID_INPUT)) ∧
    morphoProtocolSupply menv assetsRaw a marketId =
      ([], .ok (wrapAndStringify "morpho.protocol.supply"
        "Error: Assets amount must be greater than 0")) ∧
    (senv.chainId ≠ none → senv.networkId ≠ none →
      (executeSwap senv tIn tOut a).1.head? = some (.fetchTokenMetadata tIn) ∧
      (prepareAndSendSwapTransaction senv tIn tOut a).1.head? =
        some (.fetchTokenMetadata tIn)) := by
  refine ⟨?_, ?_, fun h1 h2 => ⟨executeSwap_trace_head senv tIn tOut a h1 h2,
    prepareAndSendSwap_trace_head senv tIn tOut a h1 h2⟩⟩
  · unfold writeSupplyCollateralToken
    rw [if_pos hle]
  · unfold morphoProtocolSupply
    rw [if_pos hle]

/-- C2 (witness): `nonpositive_amount_validation` evaluated at `a = 0`
on concrete healthy environments. -/
theorem nonpositive_amount_validation_witness :
    writeSupplyCollateralToken
        ⟨some "747474", some ⟨"0xLoan", "0xColl", "0xOracle", "0xIrm",
          860000000000000000, "0xMorphoBlue"⟩, 6, 0, true, "", true, "",
          "0xHash", "receipt"⟩ ⟨0, 0⟩ "0xMarket" =
      ([], .err (createError "Error: Assets amount must be greater than 0"
        ErrorCode.INVALID_INPUT)) ∧
    morphoProtocolSupply
        ⟨some "747474", some ⟨"0xLoan", "0xColl", "0xOracle", "0xIrm",
          860000000000000000, "0xMorphoBlue"⟩, 6, 0, true, "", true, "",
          "0xHash", "receipt"⟩ "0" ⟨0, 0⟩ "0xMarket" =
      ([], .ok (wrapAndStringify "morpho.protocol.supply"
        "Error: Assets amount must be greater than 0")) ∧
    ((⟨some "747474", some "katana-network", true, some 18, "0xSpender", 0,
        true, "", "Success", true, "", "0xsim", true, "", "0xHash"⟩ : SwapEnv).chainId
          ≠ none →
      (⟨some "747474", some "katana-network", true, some 18, "0xSpender", 0,
        true, "", "Success", true, "", "0xsim", true, "", "0xHash"⟩ : SwapEnv).networkId
          ≠ none →
      (executeSwap ⟨some "747474", some "katana-network", true, some 18, "0xSpender",
          0, true, "", "Success", true, "", "0xsim", true, "", "0xHash"⟩
          "0xTokenIn" "0xTokenOut" ⟨0, 0⟩).1.head? =
        some (.fetchTokenMetadata "0xTokenIn") ∧
      (prepareAndSendSwapTransaction ⟨some "747474", some "katana-network", true,
          some 18, "0xSpender", 0, true, "", "Success", true, "", "0xsim", true, "",
          "0xHash"⟩ "0xTokenIn" "0xTokenOut" ⟨0, 0⟩).1.head? =
        some (.fetchTokenMetadata "0xTokenIn")) :=
  nonpositive_amount_validation _ _ "0" "0xMarket" "0xTokenIn" "0xTokenOut"
    ⟨0, 0⟩ (by decide)

theorem takeWhile_append_all {α : Type} {p : α → Bool} {l₁ l₂ : List α}
    (h : ∀ x ∈ l₁, p x = true) :
    (l₁ ++ l₂).takeWhile p = l₁ ++ l₂.takeWhile p := by
  induction l₁ with
  | nil => simp
  | cons a as ih =>
    have ha : p a = true := h a (List.mem_cons_self a as)
    simp only [List.cons_append, List.takeWhile_cons, ha, if_pos]
    rw [ih (fun x hx => h x (List.mem_cons_of_mem a hx))]

theorem executeSwapFinish_approveCalls (env : SwapEnv) (evs : List Ev) :
    approveCalls (executeSwapFinish env evs).1 = approveCalls evs := by
  unfold executeSwapFinish
  by_cases h1 : env.quoteStatus = "Success" <;>
    by_cases h2 : env.simOk <;>
      by_cases h3 : env.mainSendOk <;>
        simp [h1, h2, h3, approveCalls]

theorem prepareAndSendSwapFinish_approveCalls (env : SwapEnv) (evs : List Ev) :
    approveCalls (prepareAndSendSwapFinish env evs).1 = approveCalls evs := by
  unfold prepareAndSendSwapFinish
  by_cases h1 : env.quoteStatus = "Success" <;>
    by_cases h2 : env.simOk <;>
      by_cases h3 : env.mainSendOk <;>
        simp [h1, h2, h3, approveCalls]

theorem executeSwapFinish_no_sendMain (env : SwapEnv) (evs : List Ev)
    (h : env.simOk = false) (he : Ev.sendMain ∉ evs) :
    Ev.sendMain ∉ (executeSwapFinish env evs).1 := by
  unfold executeSwapFinish
  by_cases h1 : env.quoteStatus = "Success" <;> simp [h1, h, he]

theorem prepareAndSendSwapFinish_no_sendMain (env : SwapEnv) (evs : List Ev)
    (h : env.simOk = false) (he : Ev.sendMain ∉ evs) :
    Ev.sendMain ∉ (prepareAndSendSwapFinish env evs).1 := by
  unfold prepareAndSendSwapFinish
  by_cases h1 : env.quoteStatus = "Success" <;> simp [h1, h, he]

theorem executeSwapFinish_beforeMain (env : SwapEnv) (evs : List Ev)
    (he : ∀ e ∈ evs, (!(e == Ev.sendMain)) = true) :
    Ev.sendMain ∈ (executeSwapFinish env evs).1 →
    beforeMainSend (executeSwapFinish env evs).1 =
      evs ++ [Ev.fetchSwapQuote, Ev.simulate] := by
  have hmem : Ev.sendMain ∉ evs := by
    intro hc
    have := he _ hc
    simp at this
  have hall : ∀ x ∈ evs ++ [Ev.fetchSwapQuote, Ev.simulate], (!(x == Ev.sendMain)) = true := by
    intro x hx
    rcases List.mem_append.1 hx with hx | hx
    · exact he x hx
    · rcases List.mem_cons.1 hx with rfl | hx
      · decide
      · rcases List.mem_cons.1 hx with rfl | hx
        · decide
        · simp at hx
  unfold executeSwapFinish
  by_cases h1 : env.quoteStatus = "Success"
  · by_cases h2 : env.simOk
    · by_cases h3 : env.mainSendOk
      · intro _
        simp only [h1, h2, h3, ne_eq, not_true_eq_false, if_false, if_true]
        unfold beforeMainSend
        rw [show evs ++ [Ev.fetchSwapQuote] ++ [Ev.simulate] ++ [Ev.sendMain] ++
              [Ev.waitMainReceipt] =
            (evs ++ [Ev.fetchSwapQuote, Ev.simulate]) ++
              [Ev.sendMain, Ev.waitMainReceipt] by simp]
        rw [takeWhile_append_all hall]
        simp [List.takeWhile]
      · intro _
        simp only [h1, h2, h3, ne_eq, not_true_eq_false, if_false, if_true,
          Bool.false_eq_true]
        unfold beforeMainSend
        rw [show evs ++ [Ev.fetchSwapQuote] ++ [Ev.simulate] ++ [Ev.sendMain] =
            (evs ++ [Ev.fetchSwapQuote, Ev.simulate]) ++ [Ev.sendMain] by simp]
        rw [takeWhile_append_all hall]
        simp [List.takeWhile]
    · intro hin
      exfalso
      revert hin
      simp only [h1, h2, ne_eq, not_true_eq_false, if_false, Bool.false_eq_true]
      simp [hmem]
  · intro hin
    exfalso
    revert hin
    simp only [h1, ne_eq, if_true]
    simp [hmem, h1]

theorem prepareAndSendSwapFinish_beforeMain (env : SwapEnv) (evs : List Ev)
    (he : ∀ e ∈ evs, (!(e == Ev.sendMain)) = true) :
    Ev.sendMain ∈ (prepareAndSendSwapFinish env evs).1 →
    beforeMainSend (prepareAndSendSwapFinish env evs).1 =
      evs ++ [Ev.fetchSwapQuote, Ev.simulate] := by
  have hmem : Ev.sendMain ∉ evs := by
    intro hc
    have := he _ hc
    simp at this
  have hall : ∀ x ∈ evs ++ [Ev.fetchSwapQuote, Ev.simulate], (!(x == Ev.sendMain)) = true := by
    intro x hx
    rcases List.mem_append.1 hx with hx | hx
    · exact he x hx
    · rcases List.mem_cons.1 hx with rfl | hx
      · decide
      · rcases List.mem_cons.1 hx with rfl | hx
        · decide
        · simp at hx
  unfold prepareAndSendSwapFinish
  by_cases h1 : env.quoteStatus = "Success"
  · by_cases h2 : env.simOk
    · by_cases h3 : env.mainSendOk
      · intro _
        simp only [h1, h2, h3, ne_eq, not_true_eq_false, if_false, if_true]
        unfold beforeMainSend
        rw [show evs ++ [Ev.fetchSwapQuote] ++ [Ev.simulate] ++ [Ev.sendMain] ++
              [Ev.waitMainReceipt] =
            (evs ++ [Ev.fetchSwapQuote, Ev.simulate]) ++
              [Ev.sendMain, Ev.waitMainReceipt] by simp]
        rw [takeWhile_append_all hall]
        simp [List.takeWhile]
      · intro _
        simp only [h1, h2, h3, ne_eq, not_true_eq_false, if_false, if_true,
          Bool.false_eq_true]
        unfold beforeMainSend
        rw [show evs ++ [Ev.fetchSwapQuote] ++ [Ev.simulate] ++ [Ev.sendMain] =
            (evs ++ [Ev.fetchSwapQuote, Ev.simulate]) ++ [Ev.sendMain] by simp]
        rw [takeWhile_append_all hall]
        simp [List.takeWhile]
    · intro hin
      exfalso
      revert hin
      simp only [h1, h2, ne_eq, not_true_eq_false, if_false, Bool.false_eq_true]
      simp [hmem]
  · intro hin
    exfalso
    revert hin
    simp only [h1, ne_eq, if_true]
    simp [hmem, h1]

theorem approve_result_error_iff (sendOk : Bool) (errMsg tok spd : String) (amt : Int) :
    strStartsWith (approve sendOk errMsg tok spd amt).2 "Error" = !sendOk := by
  cases sendOk with
  | true =>
    unfold approve strStartsWith
    simp [List.isPrefixOf, String.data_append]
  | false =>
    unfold approve strStartsWith
    simp [List.isPrefixOf, String.data_append]

theorem writeSupply_allowance_cases (env : MorphoEnv) (a : Dec) (marketId : String)
    (c : String) (cfg : MarketConfig) (hpos : 0 < a.m)
    (hc : env.chainId = some c) (hm : env.marketParams = some cfg) :
    (¬ ((env.allowanceAmount : Int) < parseUnits a env.decimals) →
       approveCalls (writeSupplyCollateralToken env a marketId).1 = []) ∧
    ((env.allowanceAmount : Int) < parseUnits a env.decimals →
       approveCalls (writeSupplyCollateralToken env a marketId).1 =
         [(cfg.collateralToken, cfg.morphoBlueContractAddress,
           parseUnits a env.decimals)] ∧
       (Ev.sendMain ∈ (writeSupplyCollateralToken env a marketId).1 →
         Ev.waitApproveReceipt ∈
           beforeMainSend (writeSupplyCollateralToken env a marketId).1)) := by
  have hnle : ¬ a.m ≤ 0 := not_le.2 hpos
  unfold writeSupplyCollateralToken
  rw [if_neg hnle, hc, hm]
  simp only
  constructor
  · intro hge
    rw [if_neg hge]
    by_cases hms : env.mainSendOk <;> simp [hms, approveCalls]
  · intro hlt
    rw [if_pos hlt]
    have herr := approve_result_error_iff env.approveSendOk env.approveErrMsg
      cfg.collateralToken cfg.morphoBlueContractAddress (parseUnits a env.decimals)
    cases hok : env.approveSendOk with
    | true =>
      rw [hok] at herr
      simp only [herr, Bool.not_true, Bool.false_eq_true, if_false, hok]
      by_cases hms : env.mainSendOk <;>
        simp [hms, approve, approveCalls, beforeMainSend, List.takeWhile_cons]
    | false =>
      rw [hok] at herr
      simp only [herr, Bool.not_false, if_true, hok]
      simp [approve, approveCalls]

theorem executeSwap_allowance_cases (env : SwapEnv) (tIn tOut : String) (a : Dec)
    (dcm : Nat) (h1 : env.chainId ≠ none) (h2 : env.networkId ≠ none)
    (hm : env.metadataOk = true) (hd : env.metadataDecimals = some dcm)
    (h0 : dcm ≠ 0) (hnn : isNativeToken tIn = false) :
    (¬ ((env.allowanceAmount : Int) < decimalToBaseUnits a dcm) →
       approveCalls (executeSwap env tIn tOut a).1 = []) ∧
    ((env.allowanceAmount : Int) < decimalToBaseUnits a dcm →
       approveCalls (executeSwap env tIn tOut a).1 =
         [(tIn, env.spender, decimalToBaseUnits a dcm)] ∧
       (Ev.sendMain ∈ (executeSwap env tIn tOut a).1 →
         Ev.waitApproveReceipt ∈ beforeMainSend (executeSwap env tIn tOut a).1)) := by
  have hcond : ¬(env.chainId = none ∨ env.networkId = none) := by
    simp [h1, h2]
  have hmo : ¬ env.metadataOk = false := by simp [hm]
  unfold executeSwap
  rw [if_neg hcond, if_neg hmo, hd]
  simp only
  rw [if_neg h0]
  simp only [hnn, Bool.false_eq_true, if_false]
  constructor
  · intro hge
    rw [if_neg hge]
    rw [executeSwapFinish_approveCalls]
    simp [approveCalls]
  · intro hlt
    rw [if_pos hlt]
    have herr := approve_result_error_iff env.approveSendOk env.approveErrMsg
      tIn env.spender (decimalToBaseUnits a dcm)
    cases hok : env.approveSendOk with
    | true =>
      rw [hok] at herr
      simp only [herr, Bool.not_true, Bool.false_eq_true, if_false, hok]
      simp only [approve, if_true]
      constructor
      · rw [executeSwapFinish_approveCalls]
        simp [approveCalls]
      · intro hmain
        have he : ∀ e ∈ [Ev.fetchTokenMetadata tIn] ++
            [Ev.readAllowance tIn env.spender] ++
            [Ev.sendApprove tIn env.spender (decimalToBaseUnits a dcm),
             Ev.waitApproveReceipt], (!(e == Ev.sendMain)) = true := by
          intro e he'
          simp only [List.mem_append, List.mem_cons, List.mem_singleton,
            List.not_mem_nil, or_false] at he'
          rcases he' with (rfl | rfl) | rfl | rfl <;> simp
        rw [executeSwapFinish_beforeMain env _ he hmain]
        simp
    | false =>
      rw [hok] at herr
      simp only [herr, Bool.not_false, if_true, hok]
      simp [approve, approveCalls]

theorem prepareAndSendSwap_allowance_cases (env : SwapEnv) (tIn tOut : String)
    (a : Dec) (dcm : Nat) (h1 : env.chainId ≠ none) (h2 : env.networkId ≠ none)
    (hm : env.metadataOk = true) (hd : env.metadataDecimals = some dcm)
    (h0 : dcm ≠ 0) (hnn : isNativeToken tIn = false) :
    (¬ ((env.allowanceAmount : Int) < decimalToBaseUnits a dcm) →
       approveCalls (prepareAndSendSwapTransaction env tIn tOut a).1 = []) ∧
    ((env.allowanceAmount : Int) < decimalToBaseUnits a dcm →
       approveCalls (prepareAndSendSwapTransaction env tIn tOut a).1 =
         [(tIn, env.spender, decimalToBaseUnits a dcm)] ∧
       (Ev.sendMain ∈ (prepareAndSendSwapTransaction env tIn tOut a).1 →
         Ev.waitApproveReceipt ∈
           beforeMainSend (prepareAndSendSwapTransaction env tIn tOut a).1)) := by
  have hcond : ¬(env.chainId = none ∨ env.networkId = none) := by
    simp [h1, h2]
  have hmo : ¬ env.metadataOk = false := by simp [hm]
  unfold prepareAndSendSwapTransaction
  rw [if_neg hcond, if_neg hmo, hd]
  simp only
  rw [if_neg h0]
  simp only [hnn, Bool.false_eq_true, if_false]
  constructor
  · intro hge
    rw [if_neg hge]
    rw [prepareAndSendSwapFinish_approveCalls]
    simp [approveCalls]
  · intro hlt
    rw [if_pos hlt]
    have herr := approve_result_error_iff env.approveSendOk env.approveErrMsg
      tIn env.spender (decimalToBaseUnits a dcm)
    cases hok : env.approveSendOk with
    | true =>
      rw [hok] at herr
      simp only [herr, Bool.not_true, Bool.false_eq_true, if_false, hok]
      simp only [approve, if_true]
      constructor
      · rw [prepareAndSendSwapFinish_approveCalls]
        simp [approveCalls]
      · intro hmain
        have he : ∀ e ∈ [Ev.fetchTokenMetadata tIn] ++
            [Ev.readAllowance tIn env.spender] ++
            [Ev.sendApprove tIn env.spender (decimalToBaseUnits a dcm),
             Ev.waitApproveReceipt], (!(e == Ev.sendMain)) = true := by
          intro e he'
          simp only [List.mem_append, List.mem_cons, List.mem_singleton,
            List.not_mem_nil, or_false] at he'
          rcases he' with (rfl | rfl) | rfl | rfl <;> simp
        rw [prepareAndSendSwapFinish_beforeMain env _ he hmain]
        simp
    | false =>
      rw [hok] at herr
      simp only [herr, Bool.not_false, if_true, hok]
      simp [approve, approveCalls]

/-- A concrete Morpho market used by witnesses. -/
def sampleMarketConfig : MarketConfig :=
  ⟨"0xLoan", "0xColl", "0xOracle", "0xIrm", 860000000000000000, "0xMorphoBlue"⟩

/-- A concrete healthy Morpho environment used by witnesses: token with 6
decimals, current allowance 0. -/
def sampleMorphoEnv : MorphoEnv :=
  ⟨some "747474", some sampleMarketConfig, 6, 0, true, "", true, "", "0xHash",
    "receipt"⟩

/-- A concrete healthy swap environment used by witnesses: token with 6
decimals, current allowance 0. -/
def sampleSwapEnv : SwapEnv :=
  ⟨some "747474", some "katana-network", true, some 6, "0xSpender", 0, true, "",
    "Success", true, "", "0xsim", true, "", "0xHash"⟩

/-- C3: allowance idempotence.  In any single token-operation execution
that reaches the allowance step (Morpho supply-collateral and both swap
executors): when the on-chain allowance is ≥ the required atomic amount,
no approve transaction is submitted; when it is <, exactly one approve
transaction for exactly the required atomic amount (to the exact
token/spender pair) is submitted, and whenever the run broadcasts the
main transaction, the approval's receipt wait occurs strictly before
that broadcast. -/
theorem allowance_check_and_approve
    (menv : MorphoEnv) (senv : SwapEnv) (a : Dec) (dcm : Nat)
    (marketId tIn tOut c : String) (cfg : MarketConfig)
    (hpos : 0 < a.m)
    (hc : menv.chainId = some c) (hmp : menv.marketParams = some cfg)
    (h1 : senv.chainId ≠ none) (h2 : senv.networkId ≠ none)
    (hm : senv.metadataOk = true) (hd : senv.metadataDecimals = some dcm)
    (h0 : dcm ≠ 0) (hnn : isNativeToken tIn = false) :
    ((¬ ((menv.allowanceAmount : Int) < parseUnits a menv.decimals) →
        approveCalls (writeSupplyCollateralToken menv a marketId).1 = []) ∧
     ((menv.allowanceAmount : Int) < parseUnits a menv.decimals →
        approveCalls (writeSupplyCollateralToken menv a marketId).1 =
          [(cfg.collateralToken, cfg.morphoBlueContractAddress,
            parseUnits a menv.decimals)] ∧
        (Ev.sendMain ∈ (writeSupplyCollateralToken menv a marketId).1 →
          Ev.waitApproveReceipt ∈
            beforeMainSend (writeSupplyCollateralToken menv a marketId).1))) ∧
    ((¬ ((senv.allowanceAmount : Int) < decimalToBaseUnits a dcm) →
        approveCalls (executeSwap senv tIn tOut a).1 = []) ∧
     ((senv.allowanceAmount : Int) < decimalToBaseUnits a dcm →
        approveCalls (executeSwap senv tIn tOut a).1 =
          [(tIn, senv.spender, decimalToBaseUnits a dcm)] ∧
        (Ev.sendMain ∈ (executeSwap senv tIn tOut a).1 →
          Ev.waitApproveReceipt ∈ beforeMainSend (executeSwap senv tIn tOut a).1))) ∧
    ((¬ ((senv.allowanceAmount : Int) < decimalToBaseUnits a dcm) →
        approveCalls (prepareAndSendSwapTransaction senv tIn tOut a).1 = []) ∧
     ((senv.allowanceAmount : Int) < decimalToBaseUnits a dcm →
        approveCalls (prepareAndSendSwapTransaction senv tIn tOut a).1 =
          [(tIn, senv.spender, decimalToBaseUnits a dcm)] ∧
        (Ev.sendMain ∈ (prepareAndSendSwapTransaction senv tIn tOut a).1 →
          Ev.waitApproveReceipt ∈
            beforeMainSend (prepareAndSendSwapTransaction senv tIn tOut a).1))) :=
  ⟨writeSupply_allowance_cases menv a marketId c cfg hpos hc hmp,
   executeSwap_allowance_cases senv tIn tOut a dcm h1 h2 hm hd h0 hnn,
   prepareAndSendSwap_allowance_cases senv tIn tOut a dcm h1 h2 hm hd h0 hnn⟩

/-- C3 (witness): `allowance_check_and_approve` evaluated at amount
`1.5`, 6 decimals, allowance 0 (the spec's own end-to-end example: the
submitted approve is for exactly `1500000`). -/
theorem allowance_check_and_approve_witness :
    ((¬ ((sampleMorphoEnv.allowanceAmount : Int) <
          parseUnits ⟨15, 1⟩ sampleMorphoEnv.decimals) →
        approveCalls (writeSupplyCollateralToken sampleMorphoEnv ⟨15, 1⟩
          "0xMarket").1 = []) ∧
     ((sampleMorphoEnv.allowanceAmount : Int) <
          parseUnits ⟨15, 1⟩ sampleMorphoEnv.decimals →
        approveCalls (writeSupplyCollateralToken sampleMorphoEnv ⟨15, 1⟩
          "0xMarket").1 =
          [(sampleMarketConfig.collateralToken,
            sampleMarketConfig.morphoBlueContractAddress,
            parseUnits ⟨15, 1⟩ sampleMorphoEnv.decimals)] ∧
        (Ev.sendMain ∈ (writeSupplyCollateralToken sampleMorphoEnv ⟨15, 1⟩
            "0xMarket").1 →
          Ev.waitApproveReceipt ∈
            beforeMainSend (writeSupplyCollateralToken sampleMorphoEnv ⟨15, 1⟩
              "0xMarket").1))) ∧
    ((¬ ((sampleSwapEnv.allowanceAmount : Int) < decimalToBaseUnits ⟨15, 1⟩ 6) →
        approveCalls (executeSwap sampleSwapEnv "0xTokenIn" "0xTokenOut"
          ⟨15, 1⟩).1 = []) ∧
     ((sampleSwapEnv.allowanceAmount : Int) < decimalToBaseUnits ⟨15, 1⟩ 6 →
        approveCalls (executeSwap sampleSwapEnv "0xTokenIn" "0xTokenOut"
          ⟨15, 1⟩).1 =
          [("0xTokenIn", sampleSwapEnv.spender, decimalToBaseUnits ⟨15, 1⟩ 6)] ∧
        (Ev.sendMain ∈ (executeSwap sampleSwapEnv "0xTokenIn" "0xTokenOut"
            ⟨15, 1⟩).1 →
          Ev.waitApproveReceipt ∈
            beforeMainSend (executeSwap sampleSwapEnv "0xTokenIn" "0xTokenOut"
              ⟨15, 1⟩).1))) ∧
    ((¬ ((sampleSwapEnv.allowanceAmount : Int) < decimalToBaseUnits ⟨15, 1⟩ 6) →
        approveCalls (prepareAndSendSwapTransaction sampleSwapEnv "0xTokenIn"
          "0xTokenOut" ⟨15, 1⟩).1 = []) ∧
     ((sampleSwapEnv.allowanceAmount : Int) < decimalToBaseUnits ⟨15, 1⟩ 6 →
        approveCalls (prepareAndSendSwapTransaction sampleSwapEnv "0xTokenIn"
          "0xTokenOut" ⟨15, 1⟩).1 =
          [("0xTokenIn", sampleSwapEnv.spender, decimalToBaseUnits ⟨15, 1⟩ 6)] ∧
        (Ev.sendMain ∈ (prepareAndSendSwapTransaction sampleSwapEnv "0xTokenIn"
            "0xTokenOut" ⟨15, 1⟩).1 →
          Ev.waitApproveReceipt ∈
            beforeMainSend (prepareAndSendSwapTransaction sampleSwapEnv
              "0xTokenIn" "0xTokenOut" ⟨15, 1⟩).1))) :=
  allowance_check_and_approve sampleMorphoEnv sampleSwapEnv ⟨15, 1⟩ 6
    "0xMarket" "0xTokenIn" "0xTokenOut" "747474" sampleMarketConfig
    (by decide) rfl rfl (by decide) (by decide) rfl rfl (by decide) (by decide)

theorem executeSwap_early_or_finish (env : SwapEnv) (tIn tOut : String) (a : Dec) :
    ((executeSwap env tIn tOut a).1.all
        (fun e => (!(e == Ev.sendMain)) && (!(e == Ev.simulate))) = true)
  ∨ ∃ pre, (∀ e ∈ pre, ((!(e == Ev.sendMain)) && (!(e == Ev.simulate))) = true) ∧
      executeSwap env tIn tOut a = executeSwapFinish env pre := by
  unfold executeSwap
  by_cases hc : env.chainId = none ∨ env.networkId = none
  · left
    simp [hc]
  · rw [if_neg hc]
    by_cases hm : env.metadataOk = false
    · left
      simp [hm]
    · rw [if_neg hm]
      cases hd : env.metadataDecimals with
      | none =>
        left
        simp
      | some dcm =>
        simp only
        by_cases h0 : dcm = 0
        · left
          simp [h0]
        · rw [if_neg h0]
          by_cases hn : isNativeToken tIn
          · right
            refine ⟨[Ev.fetchTokenMetadata tIn], ?_, by rw [if_pos hn]⟩
            intro e he'
            rcases List.mem_singleton.1 he' with rfl
            simp
          · simp only [hn, Bool.false_eq_true, if_false]
            by_cases hlt : (env.allowanceAmount : Int) < decimalToBaseUnits a dcm
            · rw [if_pos hlt]
              have herr := approve_result_error_iff env.approveSendOk
                env.approveErrMsg tIn env.spender (decimalToBaseUnits a dcm)
              cases hok : env.approveSendOk with
              | true =>
                rw [hok] at herr
                simp only [herr, Bool.not_true, Bool.false_eq_true, if_false, hok]
                right
                refine ⟨[Ev.fetchTokenMetadata tIn] ++
                  [Ev.readAllowance tIn env.spender] ++
                  [Ev.sendApprove tIn env.spender (decimalToBaseUnits a dcm),
                   Ev.waitApproveReceipt], ?_, by simp [approve]⟩
                intro e he'
                simp only [List.mem_append, List.mem_cons, List.mem_singleton,
                  List.not_mem_nil, or_false] at he'
                rcases he' with (rfl | rfl) | rfl | rfl <;> simp
              | false =>
                rw [hok] at herr
                simp only [herr, Bool.not_false, if_true, hok]
                left
                simp [approve]
            · rw [if_neg hlt]
              right
              refine ⟨[Ev.fetchTokenMetadata tIn] ++
                [Ev.readAllowance tIn env.spender], ?_, rfl⟩
              intro e he'
              simp only [List.mem_append, List.mem_singleton, List.not_mem_nil,
                or_false] at he'
              rcases he' with rfl | rfl <;> simp

theorem prepareAndSendSwap_early_or_finish (env : SwapEnv) (tIn tOut : String)
    (a : Dec) :
    ((prepareAndSendSwapTransaction env tIn tOut a).1.all
        (fun e => (!(e == Ev.sendMain)) && (!(e == Ev.simulate))) = true)
  ∨ ∃ pre, (∀ e ∈ pre, ((!(e == Ev.sendMain)) && (!(e == Ev.simulate))) = true) ∧
      prepareAndSendSwapTransaction env tIn tOut a = prepareAndSendSwapFinish env pre := by
  unfold prepareAndSendSwapTransaction
  by_cases hc : env.chainId = none ∨ env.networkId = none
  · left
    simp [hc]
  · rw [if_neg hc]
    by_cases hm : env.metadataOk = false
    · left
      simp [hm]
    · rw [if_neg hm]
      cases hd : env.metadataDecimals with
      | none =>
        left
        simp
      | some dcm =>
        simp only
        by_cases h0 : dcm = 0
        · left
          simp [h0]
        · rw [if_neg h0]
          by_cases hn : isNativeToken tIn
          · right
            refine ⟨[Ev.fetchTokenMetadata tIn], ?_, by rw [if_pos hn]⟩
            intro e he'
            rcases List.mem_singleton.1 he' with rfl
            simp
          · simp only [hn, Bool.false_eq_true, if_false]
            by_cases hlt : (env.allowanceAmount : Int) < decimalToBaseUnits a dcm
            · rw [if_pos hlt]
              have herr := approve_result_error_iff env.approveSendOk
                env.approveErrMsg tIn env.spender (decimalToBaseUnits a dcm)
              cases hok : env.approveSendOk with
              | true =>
                rw [hok] at herr
                simp only [herr, Bool.not_true, Bool.false_eq_true, if_false, hok]
                right
                refine ⟨[Ev.fetchTokenMetadata tIn] ++
                  [Ev.readAllowance tIn env.spender] ++
                  [Ev.sendApprove tIn env.spender (decimalToBaseUnits a dcm),
                   Ev.waitApproveReceipt], ?_, by simp [approve]⟩
                intro e he'
                simp only [List.mem_append, List.mem_cons, List.mem_singleton,
                  List.not_mem_nil, or_false] at he'
                rcases he' with (rfl | rfl) | rfl | rfl <;> simp
              | false =>
                rw [hok] at herr
                simp only [herr, Bool.not_false, if_true, hok]
                left
                simp [approve]
            · rw [if_neg hlt]
              right
              refine ⟨[Ev.fetchTokenMetadata tIn] ++
                [Ev.readAllowance tIn env.spender], ?_, rfl⟩
              intro e he'
              simp only [List.mem_append, List.mem_singleton, List.not_mem_nil,
                or_false] at he'
              rcases he' with rfl | rfl <;> simp

/-- C4: on the swap execution path (both `executeSwap` and
`prepareAndSendSwapTransaction`), whenever the pre-broadcast simulation
call throws, `sendTransaction` for the swap transaction is never invoked;
and in every run that does broadcast, a simulation call occurs strictly
before the broadcast. -/
theorem swap_simulation_gates_broadcast (senv : SwapEnv) (tIn tOut : String)
    (a : Dec) :
    (senv.simOk = false →
       Ev.sendMain ∉ (executeSwap senv tIn tOut a).1 ∧
       Ev.sendMain ∉ (prepareAndSendSwapTransaction senv tIn tOut a).1) ∧
    (Ev.sendMain ∈ (executeSwap senv tIn tOut a).1 →
       Ev.simulate ∈ beforeMainSend (executeSwap senv tIn tOut a).1) ∧
    (Ev.sendMain ∈ (prepareAndSendSwapTransaction senv tIn tOut a).1 →
       Ev.simulate ∈ beforeMainSend (prepareAndSendSwapTransaction senv tIn tOut a).1) := by
  refine ⟨fun hsim => ⟨?_, ?_⟩, ?_, ?_⟩
  · rcases executeSwap_early_or_finish senv tIn tOut a with hall | ⟨pre, hpre, heq⟩
    · intro hmem
      have := List.all_eq_true.1 hall _ hmem
      simp at this
    · rw [heq]
      refine executeSwapFinish_no_sendMain senv pre hsim ?_
      intro hcmem
      have := hpre _ hcmem
      simp at this
  · rcases prepareAndSendSwap_early_or_finish senv tIn tOut a with hall | ⟨pre, hpre, heq⟩
    · intro hmem
      have := List.all_eq_true.1 hall _ hmem
      simp at this
    · rw [heq]
      refine prepareAndSendSwapFinish_no_sendMain senv pre hsim ?_
      intro hcmem
      have := hpre _ hcmem
      simp at this
  · rcases executeSwap_early_or_finish senv tIn tOut a with hall | ⟨pre, hpre, heq⟩
    · intro hmem
      have := List.all_eq_true.1 hall _ hmem
      simp at this
    · intro hmem
      rw [heq] at hmem ⊢
      have he : ∀ e ∈ pre, (!(e == Ev.sendMain)) = true := by
        intro e he'
        have := hpre _ he'
        simp only [Bool.and_eq_true] at this
        exact this.1
      rw [executeSwapFinish_beforeMain senv pre he hmem]
      simp
  · rcases prepareAndSendSwap_early_or_finish senv tIn tOut a with hall | ⟨pre, hpre, heq⟩
    · intro hmem
      have := List.all_eq_true.1 hall _ hmem
      simp at this
    · intro hmem
      rw [heq] at hmem ⊢
      have he : ∀ e ∈ pre, (!(e == Ev.sendMain)) = true := by
        intro e he'
        have := hpre _ he'
        simp only [Bool.and_eq_true] at this
        exact this.1
      rw [prepareAndSendSwapFinish_beforeMain senv pre he hmem]
      simp

/-- A concrete swap environment whose pre-broadcast simulation call
throws. -/
def simFailSwapEnv : SwapEnv :=
  ⟨some "747474", some "katana-network", true, some 6, "0xSpender", 0, true, "",
    "Success", false, "execution reverted", "0xsim", true, "", "0xHash"⟩

/-- C4 (witness): `swap_simulation_gates_broadcast` evaluated on a
concrete environment whose simulation call throws. -/
theorem swap_simulation_gates_broadcast_witness :
    (simFailSwapEnv.simOk = false →
       Ev.sendMain ∉ (executeSwap simFailSwapEnv "0xTokenIn" "0xTokenOut" ⟨15, 1⟩).1 ∧
       Ev.sendMain ∉ (prepareAndSendSwapTransaction simFailSwapEnv "0xTokenIn"
         "0xTokenOut" ⟨15, 1⟩).1) ∧
    (Ev.sendMain ∈ (executeSwap simFailSwapEnv "0xTokenIn" "0xTokenOut" ⟨15, 1⟩).1 →
       Ev.simulate ∈ beforeMainSend (executeSwap simFailSwapEnv "0xTokenIn"
         "0xTokenOut" ⟨15, 1⟩).1) ∧
    (Ev.sendMain ∈ (prepareAndSendSwapTransaction simFailSwapEnv "0xTokenIn"
        "0xTokenOut" ⟨15, 1⟩).1 →
       Ev.simulate ∈ beforeMainSend (prepareAndSendSwapTransaction simFailSwapEnv
         "0xTokenIn" "0xTokenOut" ⟨15, 1⟩).1) :=
  swap_simulation_gates_broadcast simFailSwapEnv "0xTokenIn" "0xTokenOut" ⟨15, 1⟩

/-- A concrete swap environment in which the ERC-20 approval transaction
fails (allowance 0, so an approval is required). -/
def approveFailSwapEnv : SwapEnv :=
  ⟨some "747474", some "katana-network", true, some 6, "0xSpender", 0, false,
    "insufficient funds", "Success", true, "", "0xsim", true, "", "0xHash"⟩

/-- C6: evaluation at the failing input.  When the approval transaction
fails inside `executeSwap`, the action COMPLETES SUCCESSFULLY, resolving
to the plain failure-describing string
`"Error approving Morpho Vault as spender: ..."` instead of throwing a
typed error (contradicting its own doc comment, which says it throws if
approval fails); likewise the `morpho.protocol.supply` action resolves
to a wrapped `"Error: ..."` string for a non-positive amount. -/
theorem action_returns_error_string :
    (executeSwap approveFailSwapEnv "0xTokenIn" "0xTokenOut" ⟨15, 1⟩).2 =
      .ok ("Error approving Morpho Vault as spender: Error approving tokens for 0xSpender: insufficient funds") ∧
    strStartsWith "Error approving Morpho Vault as spender: Error approving tokens for 0xSpender: insufficient funds" "Error" = true ∧
    (morphoProtocolSupply sampleMorphoEnv "-1" ⟨-1, 0⟩ "0xMarket").2 =
      .ok (wrapAndStringify "morpho.protocol.supply"
        "Error: Assets amount must be greater than 0") := by
  refine ⟨by decide, by decide, by decide⟩

theorem prepareAndSendSwapFinish_filter_approval (env : SwapEnv) (evs : List Ev) :
    (prepareAndSendSwapFinish env evs).1.filter isApprovalEv =
      evs.filter isApprovalEv := by
  unfold prepareAndSendSwapFinish
  by_cases h1 : env.quoteStatus = "Success" <;>
    by_cases h2 : env.simOk <;>
      by_cases h3 : env.mainSendOk <;>
        simp [h1, h2, h3, isApprovalEv]

theorem prepareAndSendSwapFinish_prefix (env : SwapEnv) (evs : List Ev) :
    ∃ extra, (prepareAndSendSwapFinish env evs).1 = evs ++ extra := by
  unfold prepareAndSendSwapFinish
  by_cases h1 : env.quoteStatus = "Success"
  · by_cases h2 : env.simOk
    · by_cases h3 : env.mainSendOk
      · exact ⟨[Ev.fetchSwapQuote, Ev.simulate, Ev.sendMain, Ev.waitMainReceipt],
          by simp [h1, h2, h3]⟩
      · exact ⟨[Ev.fetchSwapQuote, Ev.simulate, Ev.sendMain], by simp [h1, h2, h3]⟩
    · exact ⟨[Ev.fetchSwapQuote, Ev.simulate], by simp [h1, h2]⟩
  · exact ⟨[Ev.fetchSwapQuote], by simp [h1]⟩

theorem prepareAndSendSwap_native_skips_approval (env : SwapEnv)
    (tIn tOut : String) (a : Dec) (dcm : Nat)
    (h1 : env.chainId ≠ none) (h2 : env.networkId ≠ none)
    (hm : env.metadataOk = true) (hd : env.metadataDecimals = some dcm)
    (h0 : dcm ≠ 0) :
    (isNativeToken tIn = true →
       (prepareAndSendSwapTransaction env tIn tOut a).1.filter isApprovalEv = []) ∧
    (isNativeToken tIn = false →
       Ev.readAllowance tIn env.spender ∈
         (prepareAndSendSwapTransaction env tIn tOut a).1) := by
  have hcond : ¬(env.chainId = none ∨ env.networkId = none) := by
    simp [h1, h2]
  have hmo : ¬ env.metadataOk = false := by simp [hm]
  unfold prepareAndSendSwapTransaction
  rw [if_neg hcond, if_neg hmo, hd]
  simp only
  rw [if_neg h0]
  constructor
  · intro hn
    simp only [hn, if_true]
    rw [prepareAndSendSwapFinish_filter_approval]
    simp [isApprovalEv]
  · intro hn
    simp only [hn, Bool.false_eq_true, if_false]
    by_cases hlt : (env.allowanceAmount : Int) < decimalToBaseUnits a dcm
    · rw [if_pos hlt]
      have herr := approve_result_error_iff env.approveSendOk env.approveErrMsg
        tIn env.spender (decimalToBaseUnits a dcm)
      cases hok : env.approveSendOk with
      | true =>
        rw [hok] at herr
        simp only [herr, Bool.not_true, Bool.false_eq_true, if_false, hok]
        obtain ⟨extra, hex⟩ := prepareAndSendSwapFinish_prefix env
          ([Ev.fetchTokenMetadata tIn] ++ [Ev.readAllowance tIn env.spender] ++
            (approve true env.approveErrMsg tIn env.spender
              (decimalToBaseUnits a dcm)).1)
        rw [hex]
        simp
      | false =>
        rw [hok] at herr
        simp only [herr, Bool.not_false, if_true, hok]
        simp [approve]
    · rw [if_neg hlt]
      obtain ⟨extra, hex⟩ := prepareAndSendSwapFinish_prefix env
        ([Ev.fetchTokenMetadata tIn] ++ [Ev.readAllowance tIn env.spender])
      rw [hex]
      simp

/-- C10: `isNativeToken(addr)` returns `true` exactly when `addr`,
lowercased, equals the `0xeeee…` placeholder or the zero address (the
comparison is case-insensitive); and the swap executor
(`prepareAndSendSwapTransaction`) skips the allowance read and the
approve step precisely for such addresses — for a native input token no
allowance/approve event occurs, for a non-native one the allowance read
is issued. -/
theorem isNativeToken_skips_approval (addr : String) (senv : SwapEnv)
    (tIn tOut : String) (a : Dec) (dcm : Nat)
    (h1 : senv.chainId ≠ none) (h2 : senv.networkId ≠ none)
    (hm : senv.metadataOk = true) (hd : senv.metadataDecimals = some dcm)
    (h0 : dcm ≠ 0) :
    (isNativeToken addr = true ↔
      (jsToLower addr = "0xeeeeeeeeeeeeeeeeeeeeeeeeeeeeeeeeeeeeeeee" ∨
       jsToLower addr = "0x0000000000000000000000000000000000000000")) ∧
    (isNativeToken tIn = true →
       (prepareAndSendSwapTransaction senv tIn tOut a).1.filter isApprovalEv = []) ∧
    (isNativeToken tIn = false →
       Ev.readAllowance tIn senv.spender ∈
         (prepareAndSendSwapTransaction senv tIn tOut a).1) := by
  refine ⟨?_, (prepareAndSendSwap_native_skips_approval senv tIn tOut a dcm
    h1 h2 hm hd h0).1, (prepareAndSendSwap_native_skips_approval senv tIn tOut a
    dcm h1 h2 hm hd h0).2⟩
  unfold isNativeToken
  simp

/-- C10 (witness): `isNativeToken_skips_approval` evaluated at the
mixed-case placeholder `0xEeeeeEeeeEeEeeEeEeEeeEEEeeeeEeeeeeeeEEeE` as
both the classified address and the swap's input token. -/
theorem isNativeToken_skips_approval_witness :
    (isNativeToken "0xEeeeeEeeeEeEeeEeEeEeeEEEeeeeEeeeeeeeEEeE" = true ↔
      (jsToLower "0xEeeeeEeeeEeEeeEeEeEeeEEEeeeeEeeeeeeeEEeE" =
          "0xeeeeeeeeeeeeeeeeeeeeeeeeeeeeeeeeeeeeeeee" ∨
       jsToLower "0xEeeeeEeeeEeEeeEeEeEeeEEEeeeeEeeeeeeeEEeE" =
          "0x0000000000000000000000000000000000000000")) ∧
    (isNativeToken "0xEeeeeEeeeEeEeeEeEeEeeEEEeeeeEeeeeeeeEEeE" = true →
       (prepareAndSendSwapTransaction sampleSwapEnv
         "0xEeeeeEeeeEeEeeEeEeEeeEEEeeeeEeeeeeeeEEeE" "0xTokenOut"
         ⟨15, 1⟩).1.filter isApprovalEv = []) ∧
    (isNativeToken "0xEeeeeEeeeEeEeeEeEeEeeEEEeeeeEeeeeeeeEEeE" = false →
       Ev.readAllowance "0xEeeeeEeeeEeEeeEeEeEeeEEEeeeeEeeeeeeeEEeE"
           sampleSwapEnv.spender ∈
         (prepareAndSendSwapTransaction sampleSwapEnv
           "0xEeeeeEeeeEeEeeEeEeEeeEEEeeeeEeeeeeeeEEeE" "0xTokenOut"
           ⟨15, 1⟩).1) :=
  isNativeToken_skips_approval "0xEeeeeEeeeEeEeeEeEeEeeEEEeeeeEeeeeeeeEEeE"
    sampleSwapEnv "0xEeeeeEeeeEeEeeEeEeEeeEEEeeeeEeeeeeeeEEeE" "0xTokenOut"
    ⟨15, 1⟩ 6 (by decide) (by decide) rfl rfl (by decide)

/-- An action exposed by a provider (the name stands in for the full
`{name, description, schema, invoke}` record, whose identity is all the
dispatcher manipulates; the source calls this type `Action`, a name
already taken in Lean). -/
structure KitAction where
  name : String
deriving DecidableEq, Repr

/-- An action provider as the dispatcher sees it: its registered `name`,
its `supportsNetwork` predicate and the actions its `getActions` returns. -/
structure ActionProvider where
  name : String
  supportsNetwork : Network → Bool
  actions : List KitAction

/-- A console log record emitted by the dispatcher: the aggregated
`console.warn` line, or the `console.info("Current network:", ...)` line
that accompanies it. -/
inductive LogEv where
  | warn (msg : String)
  | infoNetwork (label : String) (net : Network)

/-- The aggregated warning text built by `TensaiKit.getActions`
(`src/unnamed/part_001:86-91`): one line joining all skipped provider
names with `", "`. -/
def warnMessage (names : List String) : String :=
  "Warning: The following action providers are not supported on the current network and will be skipped: " ++
    String.intercalate ", " names

/-- The provider loop of `TensaiKit.getActions`
(`src/unnamed/part_001:78-84`): walk the registered providers in order,
collecting the actions of those whose `supportsNetwork(network)` is true
and the names of those for which it is false. -/
def getActionsLoop : List ActionProvider → Network → List KitAction × List String
  | [], _ => ([], [])
  | p :: ps, net =>
    let rest := getActionsLoop ps net
    if p.supportsNetwork net then
      (p.actions ++ rest.1, rest.2)
    else
      (rest.1, p.name :: rest.2)

/-- `TensaiKit.getActions` (`src/unnamed/part_001:73-96`): run the
provider loop, then — only when at least one provider was skipped — emit
a single aggregated `console.warn` naming every skipped provider,
followed by a `console.info` with the detected network. -/
def getActions (providers : List ActionProvider) (net : Network) :
    List KitAction × List LogEv :=
  let r := getActionsLoop providers net
  (r.1,
    if r.2.length > 0 then
      [.warn (warnMessage r.2), .infoNetwork "Current network:" net]
    else
      [])

theorem getActionsLoop_spec (providers : List ActionProvider) (net : Network) :
    getActionsLoop providers net =
      (((providers.filter (fun p => p.supportsNetwork net)).map
          (fun p => p.actions)).flatten,
       (providers.filter (fun p => !(p.supportsNetwork net))).map
          (fun p => p.name)) := by
  induction providers with
  | nil => rfl
  | cons p ps ih =>
    unfold getActionsLoop
    rw [ih]
    by_cases hs : p.supportsNetwork net <;>
      simp [hs, List.filter_cons]

/-- C7: for every provider list and wallet network, the dispatcher's
action listing returns exactly the concatenated actions of the providers
whose `supportsNetwork(network)` is true, in provider order; providers
returning false contribute no actions; and when at least one provider is
skipped, the emitted log is exactly one aggregated warning naming all
skipped providers (joined into a single line, in provider order)
together with the detected network in the accompanying info record —
in particular exactly one warning, not one per provider; with no skipped
provider nothing is logged. -/
theorem dispatcher_filters_by_network (providers : List ActionProvider)
    (net : Network) :
    (getActions providers net).1 =
      ((providers.filter (fun p => p.supportsNetwork net)).map
        (fun p => p.actions)).flatten ∧
    (getActions providers net).2 =
      (if (providers.filter (fun p => !(p.supportsNetwork net))).length = 0 then
         ([] : List LogEv)
       else
         [LogEv.warn (warnMessage
            ((providers.filter (fun p => !(p.supportsNetwork net))).map
              (fun p => p.name))),
          LogEv.infoNetwork "Current network:" net]) ∧
    (getActions providers net).2.countP
        (fun l => match l with | .warn _ => true | _ => false) =
      (if (providers.filter (fun p => !(p.supportsNetwork net))).length = 0 then 0
       else 1) := by
  unfold getActions
  rw [getActionsLoop_spec]
  simp only
  by_cases hs : (providers.filter (fun p => !(p.supportsNetwork net))).length = 0
  · have hmap : ((providers.filter (fun p => !(p.supportsNetwork net))).map
        (fun p => p.name)).length = 0 := by
      simp only [List.length_map]
      exact hs
    simp [hs, hmap]
  · have hmap : 0 < ((providers.filter (fun p => !(p.supportsNetwork net))).map
        (fun p => p.name)).length := by
      simp only [List.length_map]
      omega
    simp only [hmap, if_pos, gt_iff_lt]
    rw [if_neg hs, if_neg hs]
    simp [List.countP_cons]

/-- One HTTP response from the Privy wallet API as
`executePrivyRequest`/its callers consume it: the `ok`/`status` of the
`fetch`, and the parsed JSON body, of shape
`{ data?: { <field>? } }` — `data` is `none` when the payload lacks the
`data` member, `some none` when `data` lacks the expected field
(`signature` / `signed_transaction` / `hash`), `some (some v)` when the
expected field is present. -/
structure PrivyHttpResponse where
  ok : Bool
  status : Nat
  data : Option (Option String)
deriving DecidableEq, Repr

/-- `PrivyEvmDelegatedEmbeddedWalletProvider.executePrivyRequest`
(`src/unnamed/part_001:719-746`): POST the body; a non-`ok` response
throws `` `HTTP error! status: ${status}` ``, re-wrapped by the catch as
`"Privy request failed: ..."`; an `ok` response is returned as parsed
JSON with no shape check whatsoever. -/
def executePrivyRequest (resp : PrivyHttpResponse) :
    Except String (Option (Option String)) :=
  if resp.ok then
    .ok resp.data
  else
    .error ("Privy request failed: HTTP error! status: " ++ toString resp.status)

/-- `PrivyEvmDelegatedEmbeddedWalletProvider.signMessage`
(`src/unnamed/part_001:430-452`): returns `response.data?.signature` —
`undefined` (here `none`) when an `ok` response lacks the expected
shape; only thrown errors are re-wrapped as
`"Message signing failed: ..."`. -/
def privySignMessage (resp : PrivyHttpResponse) : Except String (Option String) :=
  match executePrivyRequest resp with
  | .ok d => .ok (d.bind id)
  | .error m => .error ("Message signing failed: " ++ m)

/-- `PrivyEvmDelegatedEmbeddedWalletProvider.signTransaction`
(`src/unnamed/part_001:497-521`): returns
`response.data?.signed_transaction`; same structure as `signMessage`. -/
def privySignTransaction (resp : PrivyHttpResponse) :
    Except String (Option String) :=
  match executePrivyRequest resp with
  | .ok d => .ok (d.bind id)
  | .error m => .error ("Transaction signing failed: " ++ m)

/-- `PrivyEvmDelegatedEmbeddedWalletProvider.sendTransaction`
(`src/unnamed/part_001:529-554`): returns `response.data?.hash`; same
structure as `signMessage`. -/
def privySendTransaction (resp : PrivyHttpResponse) :
    Except String (Option String) :=
  match executePrivyRequest resp with
  | .ok d => .ok (d.bind id)
  | .error m => .error ("Transaction sending failed: " ++ m)

/-- C8: evaluation at the failing input.  A non-2xx response does fail
every operation with an error, but a 2xx response missing the expected
payload shape does NOT: `signMessage` / `signTransaction` /
`sendTransaction` resolve successfully to `undefined`
(`response.data?.<field>` with optional chaining), both when `data` is
absent and when the expected field is absent — a partial/undefined
result derived from a malformed response. -/
theorem privy_malformed_response_not_rejected :
    privySignMessage ⟨false, 500, none⟩ =
      .error "Message signing failed: Privy request failed: HTTP error! status: 500" ∧
    privySignMessage ⟨true, 200, none⟩ = .ok none ∧
    privySignMessage ⟨true, 200, some none⟩ = .ok none ∧
    privySignTransaction ⟨true, 200, none⟩ = .ok none ∧
    privySendTransaction ⟨true, 200, some none⟩ = .ok none :=
  ⟨rfl, rfl, rfl, rfl, rfl⟩

/-- Lexicographic comparison of character lists (by code unit), the
order RFC 8785 sorts JSON object keys with. -/
def charsLe : List Char → List Char → Bool
  | [], _ => true
  | _ :: _, [] => false
  | a :: as, b :: bs =>
    if a = b then charsLe as bs else decide (a.toNat < b.toNat)

/-- Key order used by JSON canonicalization: lexicographic on the key's
code units. -/
def keyLe (s t : String) : Bool := charsLe s.data t.data

/-- Insert one `(key, value)` entry into a key-sorted entry list. -/
def insertEntry (kv : String × Json) : List (String × Json) → List (String × Json)
  | [] => [kv]
  | kv' :: rest =>
    if keyLe kv.1 kv'.1 then kv :: kv' :: rest else kv' :: insertEntry kv rest

/-- Sort an object's entries by key (insertion sort). -/
def sortEntries : List (String × Json) → List (String × Json)
  | [] => []
  | kv :: rest => insertEntry kv (sortEntries rest)

mutual

/-- Recursively sort every object's entries by key: the structural
content of the `canonicalize` package's stable key ordering. -/
def normalizeJson : Json → Json
  | .str s => .str s
  | .num n => .num n
  | .bool b => .bool b
  | .null => .null
  | .arr l => .arr (normalizeJsonList l)
  | .obj es => .obj (sortEntries (normalizeJsonEntries es))

/-- `normalizeJson` on each element of an array. -/
def normalizeJsonList : List Json → List Json
  | [] => []
  | j :: js => normalizeJson j :: normalizeJsonList js

/-- `normalizeJson` on each entry's value. -/
def normalizeJsonEntries : List (String × Json) → List (String × Json)
  | [] => []
  | (k, v) :: es => (k, normalizeJson v) :: normalizeJsonEntries es

end

/-- The `canonicalize(payload)` call of `generatePrivySignature`
(`src/unnamed/part_001:686`): the `canonicalize` npm package implements
RFC 8785 (JSON Canonicalization Scheme) — serialize the value with the
object keys sorted lexicographically at every nesting level. -/
def canonicalize (j : Json) : String := (normalizeJson j).stringify

/-- The request descriptor built by `generatePrivySignature`
(`src/unnamed/part_001:676-684`):
`{version: 1, method: "POST", url, body, headers: {"privy-app-id": appId}}`. -/
def privyPayload (appId url : String) (body : Json) : Json :=
  .obj [("version", .num 1), ("method", .str "POST"), ("url", .str url),
    ("body", body), ("headers", .obj [("privy-app-id", .str appId)])]

/-- `PrivyEvmDelegatedEmbeddedWalletProvider.generatePrivySignature`
(`src/unnamed/part_001:653-692`): canonicalize the payload and sign the
canonical bytes with the authorization private key (SHA-256 digest,
private-key signature, base64) — the entire fixed-key cryptographic step
is abstracted as the function `sign` from canonical bytes to signature
bytes. -/
def generatePrivySignature (sign : String → String) (appId url : String)
    (body : Json) : String :=
  sign (canonicalize (privyPayload appId url body))

theorem normalizeJson_privyPayload (appId url : String) (b : Json) :
    normalizeJson (privyPayload appId url b) =
      .obj (sortEntries
        [("version", .num 1), ("method", .str "POST"), ("url", .str url),
         ("body", normalizeJson b),
         ("headers", .obj (sortEntries [("privy-app-id", .str appId)]))]) := rfl

/-- C9: the request-authorization signing of the delegated embedded
wallet is deterministic: for a fixed authorization key (abstracted as
the fixed signing function `sign`), a fixed URL and app id, and request
bodies that carry the same JSON content — i.e. they agree after
recursively ordering object keys, however a serializer happened to order
them — the computed signature bytes are identical, because the payload
is canonicalized with stable key ordering before being digested and
signed. -/
theorem privy_signature_deterministic (sign : String → String)
    (appId url : String) (b₁ b₂ : Json) (h : normalizeJson b₁ = normalizeJson b₂) :
    generatePrivySignature sign appId url b₁ =
      generatePrivySignature sign appId url b₂ := by
  unfold generatePrivySignature canonicalize
  rw [normalizeJson_privyPayload, normalizeJson_privyPayload, h]

/-- C9 (witness): `privy_signature_deterministic` on two concrete bodies
that differ only in object-key insertion order. -/
theorem privy_signature_deterministic_witness :
    normalizeJson (Json.obj [("chain_type", .str "ethereum"),
        ("address", .str "0xAbc")]) =
      normalizeJson (Json.obj [("address", .str "0xAbc"),
        ("chain_type", .str "ethereum")]) ∧
    generatePrivySignature (fun s => s) "app-id"
        "https://api.privy.io/v1/wallets/rpc"
        (Json.obj [("chain_type", .str "ethereum"), ("address", .str "0xAbc")]) =
      generatePrivySignature (fun s => s) "app-id"
        "https://api.privy.io/v1/wallets/rpc"
        (Json.obj [("address", .str "0xAbc"), ("chain_type", .str "ethereum")]) :=
  ⟨rfl, privy_signature_deterministic (fun s => s) "app-id"
    "https://api.privy.io/v1/wallets/rpc" _ _ rfl⟩
